import Mathlib

/-!
Shallow embedding of the job-graph construction logic of
`joint_calling/jobs/variant_qc.py` and of the configuration validation of
`scripts/final_filter.py`, together with theorems settling the frozen
claims about this code.

A batch (`hb.Batch`) is modelled as a `Builder`: the list of created
stages (in creation order, so a stage is identified by its index) plus the
list of explicit stage-level dependency edges `(a, b)` meaning "stage `a`
depends on stage `b`".  `cluster.add_job` creates an executed stage with a
real command; `b.new_job` creates a reused placeholder (no command).
The artifact store is a function `String → Bool` (path exists or not).
-/

namespace JointCalling

/-- A Stage node: `command = none` is a reused placeholder (built through
`b.new_job(f'... [reuse]')` in the source), `command = some c` is an
executed stage dispatched with command `c`. -/
structure Stage where
  name : String
  command : Option String
deriving DecidableEq

/-- The batch being built: stages in creation order (a stage id is its
index in `stages`) and the explicit stage-level dependency edges.
`(a, b) ∈ edges` means stage `a` depends on stage `b`. -/
structure Builder where
  stages : List Stage
  edges : List (Nat × Nat)
deriving DecidableEq

/-- `b.new_job(name)`: create a placeholder stage with no command. -/
def Builder.newJob (b : Builder) (jobName : String) : Builder × Nat :=
  ({ b with stages := b.stages ++ [⟨jobName, none⟩] }, b.stages.length)

/-- Create an executed stage carrying a real command. -/
def Builder.addJob (b : Builder) (command : String) (jobName : String) : Builder × Nat :=
  ({ b with stages := b.stages ++ [⟨jobName, some command⟩] }, b.stages.length)

/-- `j.depends_on(*ups)`: append one edge from `j` to every stage in `ups`. -/
def Builder.dependsOn (b : Builder) (j : Nat) (ups : List Nat) : Builder :=
  { b with edges := b.edges ++ ups.map (fun u => (j, u)) }

/-- Every edge's source is a valid stage id (true of any batch actually
built by the batch library, where `depends_on` is only ever called on an
existing job object). -/
def Builder.SrcWF (b : Builder) : Prop :=
  ∀ e ∈ b.edges, e.1 < b.stages.length

/-- The empty batch. -/
def Builder.empty : Builder := ⟨[], []⟩

/-- Modelled from the spec: `utils.file_exists` (joint_calling/utils.py is
not under src/) — a thin existence check against the artifact store. -/
def file_exists (store : String → Bool) (p : String) : Bool := store p

/-- Modelled from the spec: `utils.can_reuse` (joint_calling/utils.py is
not under src/; spec section 4.1, Artifact Existence Oracle): returns
false unconditionally when the overwrite flag is set, otherwise true iff
every listed path already exists. -/
def can_reuse (store : String → Bool) (fps : List String) (overwrite : Bool) : Bool :=
  if overwrite then false else fps.all store

/-- An executor handle. Modelled from the spec (section 4.2): dataproc.py
is not under src/.  `cdeps` seeds the executor-level readiness gate, which
the spec distinguishes from explicit stage-level edges; provisioning a
cluster creates no Stage nodes. -/
structure Cluster where
  cname : String
  cdeps : List Nat
  long : Bool

/-- Modelled from the spec: `dataproc.get_cluster` provisions a distinct
named executor; it creates no Stage nodes and adds no stage-level edges. -/
def get_cluster (cname : String) (cdeps : List Nat) (long : Bool) : Cluster :=
  ⟨cname, cdeps, long⟩

/-- Modelled from the spec: `DataprocCluster.add_job` registers one
executed Stage against the executor (stage-level edges are added
separately through `depends_on`, mirrring the source). -/
def Cluster.add_job (_c : Cluster) (b : Builder) (command : String) (jobName : String) :
    Builder × Nat :=
  b.addJob command jobName

/-- Modelled constant for `utils.SCRIPTS_DIR` (joint_calling/utils.py is
not under src/); its concrete value is irrelevant to every claim. -/
def SCRIPTS_DIR : String := "scripts"

/-- `os.path.join` for the bucket paths used here (a simple two-component
join, which is what every call site in variant_qc.py performs). -/
def join (a b : String) : String := a ++ "/" ++ b

/-- Run-level parameters of `add_variant_qc_jobs` (source lines 21-39).
The store, the upstream dependency list and the fresh UUID fragment are
passed separately. -/
structure Config where
  work_bucket : String
  web_bucket : String
  raw_combined_mt_path : String
  hard_filter_ht_path : String
  meta_ht_path : String
  out_filtered_combined_mt_path : String
  out_filtered_vcf_ptrn_path : String
  sample_count : Nat
  ped_file : Option String
  overwrite : Bool
  vqsr_params_d : List (String × String)
  scatter_count : Nat
  is_test : Bool
  project_name : String
  run_rf : Bool
deriving DecidableEq

/- Paths fixed inside add_variant_qc_jobs (source lines 43-65, 107, 124,
154, 186, 205, 252-253). -/

def rf_bucket (cfg : Config) : String := join cfg.work_bucket "rf"

def vqsr_bucket (cfg : Config) : String := join cfg.work_bucket "vqsr"

def fam_stats_ht_path (cfg : Config) : Option String :=
  if cfg.ped_file.isSome then some (join cfg.work_bucket "fam-stats.ht") else none

def allele_data_ht_path (cfg : Config) : String := join cfg.work_bucket "allele-data.ht"

def qc_ac_ht_path (cfg : Config) : String := join cfg.work_bucket "qc-ac.ht"

def info_ht_path (cfg : Config) : String := join cfg.work_bucket "info.ht"

def info_split_ht_path (cfg : Config) : String := join cfg.work_bucket "info-split.ht"

def freq_ht_path (cfg : Config) : String := join cfg.work_bucket "frequencies.ht"

def rf_annotations_ht_path (cfg : Config) : String := join cfg.work_bucket "rf-annotations.ht"

def rf_result_ht_path (cfg : Config) : String := join cfg.work_bucket "rf-result.ht"

def vqsred_vcf_path (cfg : Config) : String := join (vqsr_bucket cfg) "output.vcf.gz"

def vqsr_final_filter_ht_path (cfg : Config) : String := join (vqsr_bucket cfg) "final-filter.ht"

def rf_final_filter_ht_path (cfg : Config) : String := join (rf_bucket cfg) "final-filter.ht"

def export_ht_path (cfg : Config) : String := join cfg.work_bucket "export_vcf.ht"

def export_vcf_header_txt (cfg : Config) : String := join cfg.work_bucket "export_vcf_header.txt"

/-- `out_filtered_vcf_ptrn_path.format(CHROM=chrom)` (source line 270). -/
def chrom_vcf_path (cfg : Config) (chrom : String) : String :=
  cfg.out_filtered_vcf_ptrn_path.replace "{CHROM}" chrom

/-- `list(map(str, range(1, 22 + 1))) + ['X', 'Y']` (source line 267). -/
def chromosomes : List String :=
  (List.range' 1 22).map (fun n => toString n) ++ ["X", "Y"]

/- Command strings, transcribed from the f-strings of the source. -/

/-- Source lines 70-73. -/
def infoCmd (cfg : Config) : String :=
  SCRIPTS_DIR ++ "/generate_info_ht.py --overwrite " ++
  "--mt " ++ cfg.raw_combined_mt_path ++ " " ++
  "--out-info-ht " ++ info_ht_path cfg ++ " " ++
  "--out-split-info-ht " ++ info_split_ht_path cfg

/-- Source lines 88-98. -/
def varQcAnnoCmd (cfg : Config) : String :=
  SCRIPTS_DIR ++ "/generate_variant_qc_annotations.py " ++
  (if cfg.overwrite then "--overwrite " else "") ++
  "--mt " ++ cfg.raw_combined_mt_path ++ " " ++
  "--hard-filtered-samples-ht " ++ cfg.hard_filter_ht_path ++ " " ++
  "--meta-ht " ++ cfg.meta_ht_path ++ " " ++
  "--out-allele-data-ht " ++ allele_data_ht_path cfg ++ " " ++
  "--out-qc-ac-ht " ++ qc_ac_ht_path cfg ++ " " ++
  (match fam_stats_ht_path cfg with
   | some f => "--out-fam-stats-ht " ++ f ++ " "
   | none => "") ++
  (match cfg.ped_file with
   | some p => "--fam-file " ++ p ++ " "
   | none => "") ++
  "--bucket " ++ cfg.work_bucket ++ " " ++
  "--n-partitions " ++ toString (cfg.scatter_count * 25)

/-- Source lines 110-115. -/
def freqCmd (cfg : Config) : String :=
  SCRIPTS_DIR ++ "/generate_freq_data.py --overwrite " ++
  "--mt " ++ cfg.raw_combined_mt_path ++ " " ++
  "--hard-filtered-samples-ht " ++ cfg.hard_filter_ht_path ++ " " ++
  "--meta-ht " ++ cfg.meta_ht_path ++ " " ++
  "--out-ht " ++ freq_ht_path cfg ++ " " ++
  "--bucket " ++ cfg.work_bucket ++ " "

/-- Source lines 127-136. -/
def rfAnnoCmd (cfg : Config) : String :=
  SCRIPTS_DIR ++ "/create_rf_annotations.py --overwrite " ++
  "--info-split-ht " ++ info_split_ht_path cfg ++ " " ++
  "--freq-ht " ++ freq_ht_path cfg ++ " " ++
  (match fam_stats_ht_path cfg with
   | some f => "--fam-stats-ht " ++ f ++ " "
   | none => "") ++
  "--allele-data-ht " ++ allele_data_ht_path cfg ++ " " ++
  "--qc-ac-ht " ++ qc_ac_ht_path cfg ++ " " ++
  "--bucket " ++ cfg.work_bucket ++ " " ++
  "--use-adj-genotypes " ++
  "--out-ht " ++ rf_annotations_ht_path cfg ++ " " ++
  "--n-partitions " ++ toString (cfg.scatter_count * 25)

/-- Source lines 158-163; `rf_model_id = f'rf_{str(uuid.uuid4())[:8]}'`
(line 155) is modelled by the explicit fresh fragment `uuidFrag`. -/
def rfCmd (cfg : Config) (uuidFrag : String) : String :=
  SCRIPTS_DIR ++ "/random_forest.py --overwrite " ++
  "--annotations-ht " ++ rf_annotations_ht_path cfg ++ " " ++
  "--bucket " ++ cfg.work_bucket ++ " " ++
  "--use-adj-genotypes " ++
  "--out-results-ht " ++ rf_result_ht_path cfg ++ " " ++
  "--out-model-id " ++ ("rf_" ++ uuidFrag) ++ " "

/-- Source lines 237-243. -/
def finalMtCmd (cfg : Config) (final_filter_path : String) : String :=
  SCRIPTS_DIR ++ "/make_finalised_mt.py --overwrite " ++
  "--mt " ++ cfg.raw_combined_mt_path ++ " " ++
  "--final-filter-ht " ++ final_filter_path ++ " " ++
  "--freq-ht " ++ freq_ht_path cfg ++ " " ++
  "--info-ht " ++ info_split_ht_path cfg ++ " " ++
  "--out-mt " ++ cfg.out_filtered_combined_mt_path ++ " " ++
  "--meta-ht " ++ cfg.meta_ht_path ++ " "

/-- Source lines 256-259. -/
def prepHtCmd (cfg : Config) : String :=
  SCRIPTS_DIR ++ "/release_vcf_prepare_ht.py " ++
  "--mt " ++ cfg.out_filtered_combined_mt_path ++ " " ++
  "--out-ht " ++ export_ht_path cfg ++ " " ++
  "--out-vcf-header-txt " ++ export_vcf_header_txt cfg

/-- Source lines 273-278. -/
def exportChromCmd (cfg : Config) (chrom : String) : String :=
  SCRIPTS_DIR ++ "/release_vcf_export_chrom.py " ++
  "--ht " ++ export_ht_path cfg ++ " " ++
  "--vcf-header-txt " ++ export_vcf_header_txt cfg ++ " " ++
  "--out-vcf " ++ chrom_vcf_path cfg chrom ++ " " ++
  "--name " ++ cfg.project_name ++ " " ++
  "--chromosome chr" ++ chrom

/-- Source lines 312-321 (`add_rf_eval_jobs`). -/
def rfEvalCmd (combined_mt_path rf_anno_ht_path info_split_path : String)
    (fam_stats : Option String)
    (rf_result_path wb score_bin_path score_bin_agg_path : String) : String :=
  SCRIPTS_DIR ++ "/evaluation.py --overwrite " ++
  "--mt " ++ combined_mt_path ++ " " ++
  "--rf-annotations-ht " ++ rf_anno_ht_path ++ " " ++
  "--info-split-ht " ++ info_split_path ++ " " ++
  (match fam_stats with
   | some f => "--fam-stats-ht " ++ f ++ " "
   | none => "") ++
  "--rf-results-ht " ++ rf_result_path ++ " " ++
  "--bucket " ++ wb ++ " " ++
  "--out-bin-ht " ++ score_bin_path ++ " " ++
  "--out-aggregated-bin-ht " ++ score_bin_agg_path ++ " " ++
  "--run-sanity-checks "

/-- Source lines 333-341 (`add_rf_eval_jobs`). -/
def rfFinalFilterCmd (final_filter_path rf_model_id info_split_path
    freq_path score_bin_path score_bin_agg_path wb : String) : String :=
  SCRIPTS_DIR ++ "/final_filter.py --overwrite " ++
  "--out-final-filter-ht " ++ final_filter_path ++ " " ++
  "--model-id " ++ rf_model_id ++ " " ++
  "--model-name RF " ++
  "--score-name RF " ++
  "--info-split-ht " ++ info_split_path ++ " " ++
  "--freq-ht " ++ freq_path ++ " " ++
  "--score-bin-ht " ++ score_bin_path ++ " " ++
  "--score-bin-agg-ht " ++ score_bin_agg_path ++ " " ++
  "--bucket " ++ wb ++ " "

/-- Source lines 377-381 (`add_vqsr_eval_jobs`). -/
def loadVqsrCmd (vqsr_filters_split_path final_gathered_vcf_path wb : String) : String :=
  SCRIPTS_DIR ++ "/load_vqsr.py --overwrite " ++
  "--split-multiallelic " ++
  "--out-path " ++ vqsr_filters_split_path ++ " " ++
  "--vqsr-vcf-path " ++ final_gathered_vcf_path ++ " " ++
  "--bucket " ++ wb ++ " "

/-- Source lines 397-411 (`add_vqsr_eval_jobs`); the optional
`--rf-result-ht` fragment mirrors the Python truthiness test
`(rf_annotations_ht_path and rf_result_ht_path)` on strings. -/
def vqsrEvalCmd (combined_mt_path rf_anno_ht_path info_split_path : String)
    (fam_stats rf_result : Option String)
    (vqsr_filters_split_path wb score_bin_path score_bin_agg_path : String) : String :=
  SCRIPTS_DIR ++ "/evaluation.py --overwrite " ++
  "--mt " ++ combined_mt_path ++ " " ++
  "--rf-annotations-ht " ++ rf_anno_ht_path ++ " " ++
  "--info-split-ht " ++ info_split_path ++ " " ++
  (match fam_stats with
   | some f => "--fam-stats-ht " ++ f ++ " "
   | none => "") ++
  (if !rf_anno_ht_path.isEmpty then
    (match rf_result with
     | some r => if !r.isEmpty then "--rf-result-ht " ++ r ++ " " else ""
     | none => "")
   else "") ++
  "--vqsr-filters-split-ht " ++ vqsr_filters_split_path ++ " " ++
  "--bucket " ++ wb ++ " " ++
  "--out-bin-ht " ++ score_bin_path ++ " " ++
  "--out-aggregated-bin-ht " ++ score_bin_agg_path ++ " " ++
  "--run-sanity-checks "

/-- Source lines 422-432 (`add_vqsr_eval_jobs`); `vqsr_model_id` is the
constant string of line 419. -/
def vqsrFinalFilterCmd (output_ht vqsr_filters_split_path info_split_path
    freq_path score_bin_path score_bin_agg_path wb : String) : String :=
  SCRIPTS_DIR ++ "/final_filter.py --overwrite " ++
  "--out-final-filter-ht " ++ output_ht ++ " " ++
  "--vqsr-filters-split-ht " ++ vqsr_filters_split_path ++ " " ++
  "--model-id vqsr_model " ++
  "--model-name VQSR " ++
  "--score-name AS_VQSLOD " ++
  "--info-split-ht " ++ info_split_path ++ " " ++
  "--freq-ht " ++ freq_path ++ " " ++
  "--score-bin-ht " ++ score_bin_path ++ " " ++
  "--score-bin-agg-ht " ++ score_bin_agg_path ++ " " ++
  "--bucket " ++ wb ++ " "

/- Derived paths fixed inside the two eval sub-graph builders. -/

def rf_score_bin_path (cfg : Config) : String := join (rf_bucket cfg) "rf-score-bin.ht"

def rf_score_bin_agg_path (cfg : Config) : String := join (rf_bucket cfg) "rf-score-agg-bin.ht"

def vqsr_filters_split_path (cfg : Config) : String := join (vqsr_bucket cfg) "vqsr-filters-split.ht"

def vqsr_score_bin_path (cfg : Config) : String := join (vqsr_bucket cfg) "vqsr-score-bin.ht"

def vqsr_score_bin_agg_path (cfg : Config) : String := join (vqsr_bucket cfg) "vqsr-score-agg-bin.ht"

/- The execute-or-reuse condition of each stage, named for the
characterization lemmas: `true` means the stage is built executed. -/

def cInfo (store : String → Bool) (cfg : Config) : Bool :=
  [info_ht_path cfg, info_split_ht_path cfg].any
    (fun fp => ! can_reuse store [fp] cfg.overwrite)

def cAnno (store : String → Bool) (cfg : Config) : Bool :=
  (([allele_data_ht_path cfg, qc_ac_ht_path cfg] ++
    (match fam_stats_ht_path cfg with | some f => [f] | none => [])).any
    (fun fp => ! can_reuse store [fp] cfg.overwrite))

def cFreq (store : String → Bool) (cfg : Config) : Bool :=
  cfg.overwrite || ! file_exists store (freq_ht_path cfg)

def cRfAnno (store : String → Bool) (cfg : Config) : Bool :=
  cfg.overwrite || ! file_exists store (rf_annotations_ht_path cfg)

def cRf (store : String → Bool) (cfg : Config) : Bool :=
  cfg.overwrite || ! file_exists store (rf_result_ht_path cfg)

def cRfEval (store : String → Bool) (cfg : Config) : Bool :=
  cfg.overwrite || ! file_exists store (rf_score_bin_path cfg)

def cRfFF (store : String → Bool) (cfg : Config) : Bool :=
  cfg.overwrite || ! file_exists store (rf_final_filter_ht_path cfg)

def cVqsr (store : String → Bool) (cfg : Config) : Bool :=
  cfg.overwrite || ! file_exists store (vqsred_vcf_path cfg)

def cLoad (store : String → Bool) (cfg : Config) : Bool :=
  cfg.overwrite || ! file_exists store (vqsr_filters_split_path cfg)

def cVEval (store : String → Bool) (cfg : Config) : Bool :=
  cfg.overwrite || ! file_exists store (vqsr_score_bin_path cfg)
    || ! file_exists store (vqsr_score_bin_agg_path cfg)

/-- The AS-VQSR final filter (source line 420) consults only existence,
never the overwrite flag. -/
def cVFF (store : String → Bool) (cfg : Config) : Bool :=
  ! file_exists store (vqsr_final_filter_ht_path cfg)

def cFinalMt (store : String → Bool) (cfg : Config) : Bool :=
  ! can_reuse store [cfg.out_filtered_combined_mt_path] cfg.overwrite

def cPrep (store : String → Bool) (cfg : Config) : Bool :=
  ! can_reuse store [export_ht_path cfg, export_vcf_header_txt cfg] cfg.overwrite

def cChr (store : String → Bool) (cfg : Config) (chrom : String) : Bool :=
  ! can_reuse store [chrom_vcf_path cfg chrom] cfg.overwrite


/- The stage-construction blocks of add_variant_qc_jobs, one definition
per contiguous source block. -/

/-- Source lines 63-79: the info stage.  The run-level dependency list is
attached after the if/else, so it applies to the reused placeholder too. -/
def infoStep (store : String → Bool) (cfg : Config) (dep : List Nat) (b : Builder) :
    Builder × Nat :=
  let (b1, info_job) :=
    if [info_ht_path cfg, info_split_ht_path cfg].any
        (fun fp => ! can_reuse store [fp] cfg.overwrite) then
      (get_cluster "VarQC 1" dep false).add_job b (infoCmd cfg) "Var QC: generate info"
    else
      b.newJob "Var QC: generate info [reuse]"
  let b2 := if dep.isEmpty then b1 else b1.dependsOn info_job dep
  (b2, info_job)

/-- Source lines 81-104: the annotations stage.  The run-level dependency
list is attached inside the executed branch only. -/
def annoStep (store : String → Bool) (cfg : Config) (dep : List Nat) (b : Builder) :
    Builder × Nat :=
  if (([allele_data_ht_path cfg, qc_ac_ht_path cfg] ++
      (match fam_stats_ht_path cfg with | some f => [f] | none => [])).any
      (fun fp => ! can_reuse store [fp] cfg.overwrite)) then
    let (b1, j) := (get_cluster "VarQC 2" dep false).add_job b (varQcAnnoCmd cfg)
      "Var QC: generate annotations"
    (if dep.isEmpty then b1 else b1.dependsOn j dep, j)
  else
    b.newJob "Var QC: generate annotations [reuse]"

/-- Source lines 106-121: the frequencies stage. -/
def freqStep (store : String → Bool) (cfg : Config) (dep : List Nat) (b : Builder) :
    Builder × Nat :=
  if cfg.overwrite || ! file_exists store (freq_ht_path cfg) then
    let (b1, j) := (get_cluster "VarQC 3" dep true).add_job b (freqCmd cfg)
      "Var QC: generate frequencies"
    (if dep.isEmpty then b1 else b1.dependsOn j dep, j)
  else
    b.newJob "Var QC: generate frequencies [reuse]"

/-- Source lines 123-141: the RF-annotations stage. -/
def rfAnnoStep (store : String → Bool) (cfg : Config) (dep : List Nat)
    (freq_job var_qc_anno_job info_job : Nat) (b : Builder) : Builder × Nat :=
  if cfg.overwrite || ! file_exists store (rf_annotations_ht_path cfg) then
    let (b1, j) := (get_cluster "VarQC 3" dep true).add_job b (rfAnnoCmd cfg)
      "Var QC: create RF annotations"
    (b1.dependsOn j [freq_job, var_qc_anno_job, info_job], j)
  else
    b.newJob "Var QC: create RF annotations [reuse]"

/-- Source lines 144-168: the random-forest stage of the RF branch. -/
def rfStep (store : String → Bool) (cfg : Config) (uuidFrag : String)
    (rf_anno_job : Nat) (b : Builder) : Builder × Nat :=
  if cfg.overwrite || ! file_exists store (rf_result_ht_path cfg) then
    let (b1, j) := (get_cluster "RF" [rf_anno_job] true).add_job b (rfCmd cfg uuidFrag)
      "Random forest"
    (b1.dependsOn j [rf_anno_job], j)
  else
    b.newJob "Random forest [reuse]"

/-- Source `add_rf_eval_jobs` (lines 288-348): RF evaluation followed by
the RF final filter; returns the final-filter job and the final-filter
table path.  Note the evaluation reuse check consults only
`score_bin_ht_path` (line 310), not the aggregated-bin table. -/
def add_rf_eval_jobs (store : String → Bool) (cluster : Cluster)
    (combined_mt_path info_split_path rf_result_path rf_anno_ht_path : String)
    (fam_stats : Option String) (freq_path rf_model_id wb : String)
    (overwrite : Bool) (dep : List Nat) (b : Builder) : Builder × Nat × String :=
  let score_bin_ht_path := join wb "rf-score-bin.ht"
  let score_bin_agg_ht_path := join wb "rf-score-agg-bin.ht"
  let (b1, eval_job) :=
    if overwrite || ! file_exists store score_bin_ht_path then
      let (ba, j) := cluster.add_job b
        (rfEvalCmd combined_mt_path rf_anno_ht_path info_split_path fam_stats
          rf_result_path wb score_bin_ht_path score_bin_agg_ht_path)
        "RF: evaluation"
      (if dep.isEmpty then ba else ba.dependsOn j dep, j)
    else
      b.newJob "RF: evaluation [reuse]"
  let final_filter_ht_path := join wb "final-filter.ht"
  let (b2, final_filter_job) :=
    if overwrite || ! file_exists store final_filter_ht_path then
      let (ba, j) := cluster.add_job b1
        (rfFinalFilterCmd final_filter_ht_path rf_model_id info_split_path
          freq_path score_bin_ht_path score_bin_agg_ht_path wb)
        "RF: final filter"
      (ba.dependsOn j [eval_job], j)
    else
      b1.newJob "RF: final filter [reuse]"
  (b2, final_filter_job, final_filter_ht_path)

/-- Modelled from the spec: `add_vqsr_jobs` (joint_calling/jobs/vqsr.py is
not under src/; spec section 4.4 treats it as an opaque external
multi-stage sub-pipeline).  Modelled as a single opaque Stage for the
recalibration pipeline, depending on the run-level upstream list, as the
spec's `vqsr_pipeline → upstream dependencies` edge states. -/
def add_vqsr_jobs (cfg : Config) (dep : List Nat) (b : Builder) : Builder × Nat :=
  let (b1, j) := b.addJob ("vqsr-pipeline --out-vcf " ++ vqsred_vcf_path cfg) "AS-VQSR"
  (b1.dependsOn j dep, j)

/-- Source `add_vqsr_eval_jobs` (lines 351-438): load_vqsr, AS-VQSR
evaluation and the AS-VQSR final filter.  Note the final-filter reuse
check (line 420) consults only `file_exists(output_ht_path)` and ignores
the overwrite flag; the evaluation reuse check (lines 391-395) consults
both bin tables. -/
def add_vqsr_eval_jobs (store : String → Bool) (cluster : Cluster)
    (combined_mt_path rf_anno_ht_path info_split_path final_gathered_vcf_path : String)
    (rf_result : Option String) (fam_stats : Option String) (freq_path wb : String)
    (overwrite : Bool) (vqsr_vcf_job rf_anno_job : Nat) (output_ht : String)
    (b : Builder) : Builder × Nat :=
  let vqsr_filters_split_ht_path := join wb "vqsr-filters-split.ht"
  let (b1, load_vqsr_job) :=
    if overwrite || ! file_exists store vqsr_filters_split_ht_path then
      let (ba, j) := cluster.add_job b
        (loadVqsrCmd vqsr_filters_split_ht_path final_gathered_vcf_path wb)
        "AS-VQSR: load_vqsr"
      (ba.dependsOn j [vqsr_vcf_job], j)
    else
      b.newJob "AS-VQSR: load_vqsr [reuse]"
  let score_bin_ht_path := join wb "vqsr-score-bin.ht"
  let score_bin_agg_ht_path := join wb "vqsr-score-agg-bin.ht"
  let (b2, eval_job) :=
    if overwrite || ! file_exists store score_bin_ht_path
        || ! file_exists store score_bin_agg_ht_path then
      let (ba, j) := cluster.add_job b1
        (vqsrEvalCmd combined_mt_path rf_anno_ht_path info_split_path fam_stats
          rf_result vqsr_filters_split_ht_path wb score_bin_ht_path score_bin_agg_ht_path)
        "AS-VQSR: evaluation"
      (ba.dependsOn j [load_vqsr_job, rf_anno_job], j)
    else
      b1.newJob "AS-VQSR: evaluation [reuse]"
  let (b3, final_filter_job) :=
    if ! file_exists store output_ht then
      let (ba, j) := cluster.add_job b2
        (vqsrFinalFilterCmd output_ht vqsr_filters_split_ht_path info_split_path
          freq_path score_bin_ht_path score_bin_agg_ht_path wb)
        "AS-VQSR: final filter"
      (ba.dependsOn j [eval_job], j)
    else
      b2.newJob "AS-VQSR: final filter [reuse]"
  (b3, final_filter_job)

/-- Source lines 234-248: the final-MT stage, dispatched on the branch's
long-lived cluster. -/
def finalMtStep (store : String → Bool) (cfg : Config) (cluster : Cluster)
    (eval_job : Nat) (final_filter_path : String) (b : Builder) : Builder × Nat :=
  if ! can_reuse store [cfg.out_filtered_combined_mt_path] cfg.overwrite then
    let (b1, j) := cluster.add_job b (finalMtCmd cfg final_filter_path) "Making final MT"
    (b1.dependsOn j [eval_job], j)
  else
    b.newJob "Making final MT [reuse]"

/-- Source lines 250-264: the export-prepare stage; its dependency on the
final-MT stage (line 264) is attached after the if/else, so it applies to
the reused placeholder too. -/
def exportPrepareStep (store : String → Bool) (cfg : Config) (cluster : Cluster)
    (final_mt_j : Nat) (b : Builder) : Builder × Nat :=
  let (b1, final_ht_j) :=
    if ! can_reuse store [export_ht_path cfg, export_vcf_header_txt cfg] cfg.overwrite then
      cluster.add_job b (prepHtCmd cfg) "Making final VCF: prepare HT"
    else
      b.newJob "Making final VCF: prepare HT [reuse]"
  (b1.dependsOn final_ht_j [final_mt_j], final_ht_j)

/-- Source lines 268-284: one iteration of the per-chromosome export
loop; the edge to the export-prepare stage (line 284) is attached after
the if/else, so it applies to the reused placeholder too. -/
def exportChromStep (store : String → Bool) (cfg : Config) (cluster : Cluster)
    (final_ht_j : Nat) (acc : Builder × List Nat) (chrom : String) : Builder × List Nat :=
  let vcf_path := chrom_vcf_path cfg chrom
  let (b1, j) :=
    if ! can_reuse store [vcf_path] cfg.overwrite then
      cluster.add_job acc.1 (exportChromCmd cfg chrom)
        ("Making final VCF: HT to VCF for chr" ++ chrom)
    else
      acc.1.newJob ("Making final VCF: HT to VCF for chr" ++ chrom ++ " [reuse]")
  (b1.dependsOn j [final_ht_j], acc.2 ++ [j])

/-- Source `add_variant_qc_jobs` (lines 21-285): the whole variant-QC job
graph.  `dep` is the run-level `depends_on` list, `uuidFrag` models the
fresh `str(uuid.uuid4())[:8]` fragment drawn at line 155.  Returns the
updated batch and the list of per-chromosome export jobs (line 285). -/
def add_variant_qc_jobs (store : String → Bool) (cfg : Config) (dep : List Nat)
    (uuidFrag : String) (b0 : Builder) : Builder × List Nat :=
  let (b1, info_job) := infoStep store cfg dep b0
  let (b2, var_qc_anno_job) := annoStep store cfg dep b1
  let (b3, freq_job) := freqStep store cfg dep b2
  let (b4, rf_anno_job) := rfAnnoStep store cfg dep freq_job var_qc_anno_job info_job b3
  let (b5, eval_job, final_filter_path, cluster) :=
    if cfg.run_rf then
      -- source lines 143-183
      let rfCluster := get_cluster "RF" [rf_anno_job] true
      let (ba, rf_job) := rfStep store cfg uuidFrag rf_anno_job b4
      let (bb, ff_job, ffp) := add_rf_eval_jobs store rfCluster
        cfg.raw_combined_mt_path (info_split_ht_path cfg) (rf_result_ht_path cfg)
        (rf_annotations_ht_path cfg) (fam_stats_ht_path cfg) (freq_ht_path cfg)
        ("rf_" ++ uuidFrag) (rf_bucket cfg) cfg.overwrite
        [rf_job, freq_job, rf_anno_job] ba
      (bb, ff_job, ffp, rfCluster)
    else
      -- source lines 185-232
      let (ba, vqsr_vcf_job) :=
        if cfg.overwrite || ! file_exists store (vqsred_vcf_path cfg) then
          add_vqsr_jobs cfg dep b4
        else
          b4.newJob "AS-VQSR [reuse]"
      let ffp := vqsr_final_filter_ht_path cfg
      let vqsrCluster := get_cluster "VQSR eval" [rf_anno_job, vqsr_vcf_job] true
      let (bb, ev_job) := add_vqsr_eval_jobs store vqsrCluster
        cfg.raw_combined_mt_path (rf_annotations_ht_path cfg) (info_split_ht_path cfg)
        (vqsred_vcf_path cfg) none (fam_stats_ht_path cfg) (freq_ht_path cfg)
        (vqsr_bucket cfg) cfg.overwrite vqsr_vcf_job rf_anno_job ffp ba
      -- line 232: attached unconditionally, also to a reused final filter
      (bb.dependsOn ev_job [vqsr_vcf_job, rf_anno_job, info_job], ev_job, ffp, vqsrCluster)
  let (b6, final_mt_j) := finalMtStep store cfg cluster eval_job final_filter_path b5
  let (b7, final_ht_j) := exportPrepareStep store cfg cluster final_mt_j b6
  chromosomes.foldl (exportChromStep store cfg cluster final_ht_j) (b7, [])

/-- A stage in executed (`c = true`) or reused form. -/
def mkStage (c : Bool) (jobName : String) (command : String) : Stage :=
  if c then ⟨jobName, some command⟩ else ⟨jobName ++ " [reuse]", none⟩

/-- The stages appended by a `run_rf=true` call, in creation order. -/
def newStagesRF (store : String → Bool) (cfg : Config) (uuidFrag : String) : List Stage :=
  [ mkStage (cInfo store cfg) "Var QC: generate info" (infoCmd cfg),
    mkStage (cAnno store cfg) "Var QC: generate annotations" (varQcAnnoCmd cfg),
    mkStage (cFreq store cfg) "Var QC: generate frequencies" (freqCmd cfg),
    mkStage (cRfAnno store cfg) "Var QC: create RF annotations" (rfAnnoCmd cfg),
    mkStage (cRf store cfg) "Random forest" (rfCmd cfg uuidFrag),
    mkStage (cRfEval store cfg) "RF: evaluation"
      (rfEvalCmd cfg.raw_combined_mt_path (rf_annotations_ht_path cfg)
        (info_split_ht_path cfg) (fam_stats_ht_path cfg) (rf_result_ht_path cfg)
        (rf_bucket cfg) (rf_score_bin_path cfg) (rf_score_bin_agg_path cfg)),
    mkStage (cRfFF store cfg) "RF: final filter"
      (rfFinalFilterCmd (rf_final_filter_ht_path cfg) ("rf_" ++ uuidFrag)
        (info_split_ht_path cfg) (freq_ht_path cfg) (rf_score_bin_path cfg)
        (rf_score_bin_agg_path cfg) (rf_bucket cfg)),
    mkStage (cFinalMt store cfg) "Making final MT"
      (finalMtCmd cfg (rf_final_filter_ht_path cfg)),
    mkStage (cPrep store cfg) "Making final VCF: prepare HT" (prepHtCmd cfg) ] ++
  chromosomes.map (fun ch =>
    mkStage (cChr store cfg ch) ("Making final VCF: HT to VCF for chr" ++ ch)
      (exportChromCmd cfg ch))

/-- The edges appended by a `run_rf=true` call; `n` is the number of
stages already in the batch. -/
def newEdgesRF (store : String → Bool) (cfg : Config) (dep : List Nat) (n : Nat) :
    List (Nat × Nat) :=
  dep.map (fun u => (n, u)) ++
  (if cAnno store cfg then dep.map (fun u => (n + 1, u)) else []) ++
  (if cFreq store cfg then dep.map (fun u => (n + 2, u)) else []) ++
  (if cRfAnno store cfg then [(n + 3, n + 2), (n + 3, n + 1), (n + 3, n)] else []) ++
  (if cRf store cfg then [(n + 4, n + 3)] else []) ++
  (if cRfEval store cfg then [(n + 5, n + 4), (n + 5, n + 2), (n + 5, n + 3)] else []) ++
  (if cRfFF store cfg then [(n + 6, n + 5)] else []) ++
  (if cFinalMt store cfg then [(n + 7, n + 6)] else []) ++
  [(n + 8, n + 7)] ++
  (List.range 24).map (fun k => (n + 9 + k, n + 8))

/-- The stages appended by a `run_rf=false` call, in creation order. -/
def newStagesVqsr (store : String → Bool) (cfg : Config) : List Stage :=
  [ mkStage (cInfo store cfg) "Var QC: generate info" (infoCmd cfg),
    mkStage (cAnno store cfg) "Var QC: generate annotations" (varQcAnnoCmd cfg),
    mkStage (cFreq store cfg) "Var QC: generate frequencies" (freqCmd cfg),
    mkStage (cRfAnno store cfg) "Var QC: create RF annotations" (rfAnnoCmd cfg),
    mkStage (cVqsr store cfg) "AS-VQSR"
      ("vqsr-pipeline --out-vcf " ++ vqsred_vcf_path cfg),
    mkStage (cLoad store cfg) "AS-VQSR: load_vqsr"
      (loadVqsrCmd (vqsr_filters_split_path cfg) (vqsred_vcf_path cfg) (vqsr_bucket cfg)),
    mkStage (cVEval store cfg) "AS-VQSR: evaluation"
      (vqsrEvalCmd cfg.raw_combined_mt_path (rf_annotations_ht_path cfg)
        (info_split_ht_path cfg) (fam_stats_ht_path cfg) none
        (vqsr_filters_split_path cfg) (vqsr_bucket cfg) (vqsr_score_bin_path cfg)
        (vqsr_score_bin_agg_path cfg)),
    mkStage (cVFF store cfg) "AS-VQSR: final filter"
      (vqsrFinalFilterCmd (vqsr_final_filter_ht_path cfg) (vqsr_filters_split_path cfg)
        (info_split_ht_path cfg) (freq_ht_path cfg) (vqsr_score_bin_path cfg)
        (vqsr_score_bin_agg_path cfg) (vqsr_bucket cfg)),
    mkStage (cFinalMt store cfg) "Making final MT"
      (finalMtCmd cfg (vqsr_final_filter_ht_path cfg)),
    mkStage (cPrep store cfg) "Making final VCF: prepare HT" (prepHtCmd cfg) ] ++
  chromosomes.map (fun ch =>
    mkStage (cChr store cfg ch) ("Making final VCF: HT to VCF for chr" ++ ch)
      (exportChromCmd cfg ch))

/-- The edges appended by a `run_rf=false` call. -/
def newEdgesVqsr (store : String → Bool) (cfg : Config) (dep : List Nat) (n : Nat) :
    List (Nat × Nat) :=
  dep.map (fun u => (n, u)) ++
  (if cAnno store cfg then dep.map (fun u => (n + 1, u)) else []) ++
  (if cFreq store cfg then dep.map (fun u => (n + 2, u)) else []) ++
  (if cRfAnno store cfg then [(n + 3, n + 2), (n + 3, n + 1), (n + 3, n)] else []) ++
  (if cVqsr store cfg then dep.map (fun u => (n + 4, u)) else []) ++
  (if cLoad store cfg then [(n + 5, n + 4)] else []) ++
  (if cVEval store cfg then [(n + 6, n + 5), (n + 6, n + 3)] else []) ++
  (if cVFF store cfg then [(n + 7, n + 6)] else []) ++
  [(n + 7, n + 4), (n + 7, n + 3), (n + 7, n)] ++
  (if cFinalMt store cfg then [(n + 8, n + 7)] else []) ++
  [(n + 9, n + 8)] ++
  (List.range 24).map (fun k => (n + 10 + k, n + 9))

/- scripts/final_filter.py -/

/-- The configuration validation of `generate_final_filter_ht`
(scripts/final_filter.py lines 69-94).  A raised `ValueError(msg)` is
`Except.error msg`; `Except.ok ()` stands for proceeding into the
Hail table computation of lines 96-229, which is domain computation over
the external dataframe engine and out of the spec's scope.  Bin cutoffs
are ints and score cutoffs rationals (source floats); the validation only
tests them against None.  `aggHt` is the presence of the optional
`aggregated_bin_ht` argument. -/
def generate_final_filter_ht (snp_bin_cutoff indel_bin_cutoff : Option Int)
    (snp_score_cutoff indel_score_cutoff : Option ℚ)
    (aggHt : Bool) (bin_id : Option String) : Except String Unit :=
  if snp_bin_cutoff.isSome && snp_score_cutoff.isSome then
    .error "snp_bin_cutoff and snp_score_cutoff are mutually exclusive, please only supply one SNP filtering cutoff."
  else if indel_bin_cutoff.isSome && indel_score_cutoff.isSome then
    .error "indel_bin_cutoff and indel_score_cutoff are mutually exclusive, please only supply one indel filtering cutoff."
  else if snp_bin_cutoff.isNone && snp_score_cutoff.isNone then
    .error "One (and only one) of the parameters snp_bin_cutoff and snp_score_cutoff must be supplied."
  else if indel_bin_cutoff.isNone && indel_score_cutoff.isNone then
    .error "One (and only one) of the parameters indel_bin_cutoff and indel_score_cutoff must be supplied."
  else if (snp_bin_cutoff.isSome || indel_bin_cutoff.isSome) && (!aggHt || bin_id.isNone) then
    .error "If using snp_bin_cutoff or indel_bin_cutoff, both aggregated_bin_ht and bin_id must be supplied"
  else
    .ok ()

/-- The missing-prerequisite check of `final_filter.main`
(scripts/final_filter.py lines 333-338) followed by the call into
`generate_final_filter_ht` (lines 340-357, which pass an aggregated-bin
table and `bin_id="bin"`).  Modelled from the spec for the parts of main
that are not this repository's code: the path of the aggregated-bin
table for a model id comes from the external resource accessor
`get_score_bins(model_id, aggregated=True).path`, modelled by the
function `aggPathOf`.  Note the source of `main` refers throughout to an
undefined name `args` (lines 321-351) and to never-imported resource
accessors (`get_score_bins`, `get_info`, `get_freq`, line 320 on), so the
definition below models the clear intent, with `args.x` read as the
corresponding parameter. -/
def final_filter_main (store : String → Bool) (model_id : String)
    (aggPathOf : String → String)
    (snp_bin_cutoff indel_bin_cutoff : Option Int)
    (snp_score_cutoff indel_score_cutoff : Option ℚ) : Except String Unit :=
  let aggregated_bin_path := aggPathOf model_id
  if ! file_exists store aggregated_bin_path then
    .error ("Could not find binned HT for model: " ++ model_id ++ " (" ++
      aggregated_bin_path ++ "). Please run create_ranked_scores.py for that hash.")
  else
    generate_final_filter_ht snp_bin_cutoff indel_bin_cutoff
      snp_score_cutoff indel_score_cutoff true (some "bin")

/- Helper definitions for the claim statements. -/

/-- The outgoing dependency edges of stage `j`. -/
def Builder.edgesFrom (b : Builder) (j : Nat) : List (Nat × Nat) :=
  b.edges.filter (fun e => e.1 == j)

/-- A stage is a reused placeholder iff it carries no command. -/
def Stage.isReused (s : Stage) : Bool := s.command.isNone

/-- The stage names of the random-forest filtering branch (executed and
reused forms). -/
def rfBranchNames : List String :=
  ["Random forest", "Random forest [reuse]", "RF: evaluation", "RF: evaluation [reuse]",
   "RF: final filter", "RF: final filter [reuse]"]

/-- The stage names of the recalibration (AS-VQSR) filtering branch
(executed and reused forms). -/
def vqsrBranchNames : List String :=
  ["AS-VQSR", "AS-VQSR [reuse]", "AS-VQSR: load_vqsr", "AS-VQSR: load_vqsr [reuse]",
   "AS-VQSR: evaluation", "AS-VQSR: evaluation [reuse]",
   "AS-VQSR: final filter", "AS-VQSR: final filter [reuse]"]

/-- `cmd` invokes the given script somewhere in its text. -/
def invokes (cmd script : String) : Prop := ∃ p q, cmd = p ++ script ++ q

/-- An artifact store where every path exists. -/
def storeAll : String → Bool := fun _ => true

/-- An artifact store where no path exists. -/
def storeNone : String → Bool := fun _ => false

/-- A concrete run configuration used by the witnesses and
counterexamples. -/
def cfgBase : Config :=
  { work_bucket := "gs://wb", web_bucket := "gs://web",
    raw_combined_mt_path := "gs://raw.mt", hard_filter_ht_path := "gs://hf.ht",
    meta_ht_path := "gs://meta.ht", out_filtered_combined_mt_path := "gs://out.mt",
    out_filtered_vcf_ptrn_path := "gs://out-chr{CHROM}.vcf.bgz", sample_count := 10,
    ped_file := none, overwrite := false, vqsr_params_d := [], scatter_count := 2,
    is_test := false, project_name := "proj", run_rf := false }

/-!  Characterization lemmas: each construction step appends exactly its
stage(s) and edge(s). -/

theorem infoStep_eq (store : String → Bool) (cfg : Config) (dep : List Nat) (b : Builder) :
    infoStep store cfg dep b =
      ({ stages := b.stages ++
           [mkStage (cInfo store cfg) "Var QC: generate info" (infoCmd cfg)],
         edges := b.edges ++ dep.map (fun u => (b.stages.length, u)) },
       b.stages.length) := by
  unfold infoStep cInfo mkStage Cluster.add_job Builder.addJob Builder.newJob
    Builder.dependsOn
  cases h : [info_ht_path cfg, info_split_ht_path cfg].any
      (fun fp => ! can_reuse store [fp] cfg.overwrite) <;>
    cases dep <;> simp [h]

theorem annoStep_eq (store : String → Bool) (cfg : Config) (dep : List Nat) (b : Builder) :
    annoStep store cfg dep b =
      ({ stages := b.stages ++
           [mkStage (cAnno store cfg) "Var QC: generate annotations" (varQcAnnoCmd cfg)],
         edges := b.edges ++
           (if cAnno store cfg then dep.map (fun u => (b.stages.length, u)) else []) },
       b.stages.length) := by
  unfold annoStep cAnno mkStage Cluster.add_job Builder.addJob Builder.newJob
    Builder.dependsOn
  cases h : (([allele_data_ht_path cfg, qc_ac_ht_path cfg] ++
      (match fam_stats_ht_path cfg with | some f => [f] | none => [])).any
      (fun fp => ! can_reuse store [fp] cfg.overwrite)) <;>
    cases dep <;> simp [h]

theorem freqStep_eq (store : String → Bool) (cfg : Config) (dep : List Nat) (b : Builder) :
    freqStep store cfg dep b =
      ({ stages := b.stages ++
           [mkStage (cFreq store cfg) "Var QC: generate frequencies" (freqCmd cfg)],
         edges := b.edges ++
           (if cFreq store cfg then dep.map (fun u => (b.stages.length, u)) else []) },
       b.stages.length) := by
  unfold freqStep cFreq mkStage Cluster.add_job Builder.addJob Builder.newJob
    Builder.dependsOn
  cases h : (cfg.overwrite || ! file_exists store (freq_ht_path cfg)) <;>
    cases dep <;> simp [h]

theorem rfAnnoStep_eq (store : String → Bool) (cfg : Config) (dep : List Nat)
    (fj aj ij : Nat) (b : Builder) :
    rfAnnoStep store cfg dep fj aj ij b =
      ({ stages := b.stages ++
           [mkStage (cRfAnno store cfg) "Var QC: create RF annotations" (rfAnnoCmd cfg)],
         edges := b.edges ++
           (if cRfAnno store cfg then
             [(b.stages.length, fj), (b.stages.length, aj), (b.stages.length, ij)]
            else []) },
       b.stages.length) := by
  unfold rfAnnoStep cRfAnno mkStage Cluster.add_job Builder.addJob Builder.newJob
    Builder.dependsOn
  cases h : (cfg.overwrite || ! file_exists store (rf_annotations_ht_path cfg)) <;>
    simp [h]

theorem rfStep_eq (store : String → Bool) (cfg : Config) (uuidFrag : String)
    (raj : Nat) (b : Builder) :
    rfStep store cfg uuidFrag raj b =
      ({ stages := b.stages ++
           [mkStage (cRf store cfg) "Random forest" (rfCmd cfg uuidFrag)],
         edges := b.edges ++
           (if cRf store cfg then [(b.stages.length, raj)] else []) },
       b.stages.length) := by
  unfold rfStep cRf mkStage Cluster.add_job Builder.addJob Builder.newJob
    Builder.dependsOn
  cases h : (cfg.overwrite || ! file_exists store (rf_result_ht_path cfg)) <;>
    simp [h]

theorem finalMtStep_eq (store : String → Bool) (cfg : Config) (cl : Cluster)
    (ej : Nat) (ffp : String) (b : Builder) :
    finalMtStep store cfg cl ej ffp b =
      ({ stages := b.stages ++
           [mkStage (cFinalMt store cfg) "Making final MT" (finalMtCmd cfg ffp)],
         edges := b.edges ++
           (if cFinalMt store cfg then [(b.stages.length, ej)] else []) },
       b.stages.length) := by
  unfold finalMtStep cFinalMt mkStage Cluster.add_job Builder.addJob Builder.newJob
    Builder.dependsOn
  cases h : can_reuse store [cfg.out_filtered_combined_mt_path] cfg.overwrite <;>
    simp [h]

theorem exportPrepareStep_eq (store : String → Bool) (cfg : Config) (cl : Cluster)
    (fmt : Nat) (b : Builder) :
    exportPrepareStep store cfg cl fmt b =
      ({ stages := b.stages ++
           [mkStage (cPrep store cfg) "Making final VCF: prepare HT" (prepHtCmd cfg)],
         edges := b.edges ++ [(b.stages.length, fmt)] },
       b.stages.length) := by
  unfold exportPrepareStep cPrep mkStage Cluster.add_job Builder.addJob Builder.newJob
    Builder.dependsOn
  cases h : can_reuse store [export_ht_path cfg, export_vcf_header_txt cfg] cfg.overwrite <;>
    simp [h]

theorem exportChromStep_eq (store : String → Bool) (cfg : Config) (cl : Cluster)
    (fht : Nat) (b : Builder) (js : List Nat) (ch : String) :
    exportChromStep store cfg cl fht (b, js) ch =
      ({ stages := b.stages ++
           [mkStage (cChr store cfg ch) ("Making final VCF: HT to VCF for chr" ++ ch)
             (exportChromCmd cfg ch)],
         edges := b.edges ++ [(b.stages.length, fht)] },
       js ++ [b.stages.length]) := by
  unfold exportChromStep cChr mkStage Cluster.add_job Builder.addJob Builder.newJob
    Builder.dependsOn
  cases h : can_reuse store [chrom_vcf_path cfg ch] cfg.overwrite <;>
    simp [h]

theorem add_rf_eval_jobs_eq (store : String → Bool) (cl : Cluster)
    (cmp isp rrp rap : String) (fam : Option String) (fp mid wb : String)
    (ow : Bool) (dep : List Nat) (b : Builder) :
    add_rf_eval_jobs store cl cmp isp rrp rap fam fp mid wb ow dep b =
      ({ stages := b.stages ++
           [ mkStage (ow || ! file_exists store (join wb "rf-score-bin.ht"))
               "RF: evaluation"
               (rfEvalCmd cmp rap isp fam rrp wb (join wb "rf-score-bin.ht")
                 (join wb "rf-score-agg-bin.ht")),
             mkStage (ow || ! file_exists store (join wb "final-filter.ht"))
               "RF: final filter"
               (rfFinalFilterCmd (join wb "final-filter.ht") mid isp fp
                 (join wb "rf-score-bin.ht") (join wb "rf-score-agg-bin.ht") wb) ],
         edges := b.edges ++
           (if ow || ! file_exists store (join wb "rf-score-bin.ht") then
             dep.map (fun u => (b.stages.length, u)) else []) ++
           (if ow || ! file_exists store (join wb "final-filter.ht") then
             [(b.stages.length + 1, b.stages.length)] else []) },
       b.stages.length + 1, join wb "final-filter.ht") := by
  unfold add_rf_eval_jobs mkStage Cluster.add_job Builder.addJob Builder.newJob
    Builder.dependsOn
  cases h1 : (ow || ! file_exists store (join wb "rf-score-bin.ht")) <;>
    cases h2 : (ow || ! file_exists store (join wb "final-filter.ht")) <;>
      cases dep <;> simp_all

theorem add_vqsr_eval_jobs_eq (store : String → Bool) (cl : Cluster)
    (cmp rap isp fgv : String) (rr fam : Option String) (fp wb : String)
    (ow : Bool) (vj raj : Nat) (oht : String) (b : Builder) :
    add_vqsr_eval_jobs store cl cmp rap isp fgv rr fam fp wb ow vj raj oht b =
      ({ stages := b.stages ++
           [ mkStage (ow || ! file_exists store (join wb "vqsr-filters-split.ht"))
               "AS-VQSR: load_vqsr"
               (loadVqsrCmd (join wb "vqsr-filters-split.ht") fgv wb),
             mkStage (ow || ! file_exists store (join wb "vqsr-score-bin.ht")
                 || ! file_exists store (join wb "vqsr-score-agg-bin.ht"))
               "AS-VQSR: evaluation"
               (vqsrEvalCmd cmp rap isp fam rr (join wb "vqsr-filters-split.ht") wb
                 (join wb "vqsr-score-bin.ht") (join wb "vqsr-score-agg-bin.ht")),
             mkStage (! file_exists store oht)
               "AS-VQSR: final filter"
               (vqsrFinalFilterCmd oht (join wb "vqsr-filters-split.ht") isp fp
                 (join wb "vqsr-score-bin.ht") (join wb "vqsr-score-agg-bin.ht") wb) ],
         edges := b.edges ++
           (if ow || ! file_exists store (join wb "vqsr-filters-split.ht") then
             [(b.stages.length, vj)] else []) ++
           (if ow || ! file_exists store (join wb "vqsr-score-bin.ht")
               || ! file_exists store (join wb "vqsr-score-agg-bin.ht") then
             [(b.stages.length + 1, b.stages.length), (b.stages.length + 1, raj)]
            else []) ++
           (if ! file_exists store oht then
             [(b.stages.length + 2, b.stages.length + 1)] else []) },
       b.stages.length + 2) := by
  unfold add_vqsr_eval_jobs mkStage Cluster.add_job Builder.addJob Builder.newJob
    Builder.dependsOn
  cases h1 : (ow || ! file_exists store (join wb "vqsr-filters-split.ht")) <;>
    cases h2 : (ow || ! file_exists store (join wb "vqsr-score-bin.ht")
        || ! file_exists store (join wb "vqsr-score-agg-bin.ht")) <;>
      cases h3 : file_exists store oht <;> simp [h1, h2, h3]

theorem exportFold_eq (store : String → Bool) (cfg : Config) (cl : Cluster) (fht : Nat) :
    ∀ (chroms : List String) (b : Builder) (js : List Nat),
      chroms.foldl (exportChromStep store cfg cl fht) (b, js) =
        ({ stages := b.stages ++ chroms.map (fun ch =>
             mkStage (cChr store cfg ch) ("Making final VCF: HT to VCF for chr" ++ ch)
               (exportChromCmd cfg ch)),
           edges := b.edges ++ (List.range chroms.length).map
             (fun k => (b.stages.length + k, fht)) },
         js ++ (List.range chroms.length).map (fun k => b.stages.length + k)) := by
  intro chroms
  induction chroms with
  | nil => intro b js; simp
  | cons c cs ih =>
    intro b js
    rw [List.foldl_cons, exportChromStep_eq, ih]
    refine Prod.ext ?_ ?_
    · refine congrArg₂ Builder.mk ?_ ?_
      · simp
      · simp only [List.length_append, List.length_singleton, List.length_cons,
          List.range_succ_eq_map, List.map_cons, List.map_map, List.append_assoc,
          List.cons_append, List.nil_append, Nat.add_zero]
        refine congrArg (fun t => b.edges ++ ((b.stages.length, fht) :: t)) ?_
        refine congrArg (fun f => List.map f (List.range cs.length)) ?_
        funext k
        simp [Function.comp]
        omega
    · simp only [List.length_append, List.length_singleton, List.length_cons,
        List.range_succ_eq_map, List.map_cons, List.map_map, List.append_assoc,
        List.cons_append, List.nil_append, Nat.add_zero]
      refine congrArg (fun t => js ++ (b.stages.length :: t)) ?_
      refine congrArg (fun f => List.map f (List.range cs.length)) ?_
      funext k
      simp [Function.comp]
      omega

theorem chromosomes_length : chromosomes.length = 24 := by rfl

theorem add_variant_qc_jobs_rf (store : String → Bool) (cfg : Config) (dep : List Nat)
    (u : String) (b0 : Builder) (hrf : cfg.run_rf = true) :
    add_variant_qc_jobs store cfg dep u b0 =
      ({ stages := b0.stages ++ newStagesRF store cfg u,
         edges := b0.edges ++ newEdgesRF store cfg dep b0.stages.length },
       (List.range 24).map (fun k => b0.stages.length + 9 + k)) := by
  unfold add_variant_qc_jobs
  simp only [infoStep_eq, annoStep_eq, freqStep_eq, rfAnnoStep_eq, hrf, if_true,
    rfStep_eq, add_rf_eval_jobs_eq, finalMtStep_eq, exportPrepareStep_eq,
    exportFold_eq, newStagesRF, newEdgesRF,
    cRfEval, cRfFF, rf_score_bin_path, rf_score_bin_agg_path, rf_final_filter_ht_path,
    List.length_append, List.length_singleton, List.length_cons, List.length_nil,
    List.append_assoc, List.cons_append, List.nil_append, Nat.add_assoc,
    Nat.reduceAdd, Nat.add_zero, Nat.zero_add, List.map_cons, List.map_nil,
    chromosomes_length]

theorem add_variant_qc_jobs_vqsr (store : String → Bool) (cfg : Config) (dep : List Nat)
    (u : String) (b0 : Builder) (hrf : cfg.run_rf = false) :
    add_variant_qc_jobs store cfg dep u b0 =
      ({ stages := b0.stages ++ newStagesVqsr store cfg,
         edges := b0.edges ++ newEdgesVqsr store cfg dep b0.stages.length },
       (List.range 24).map (fun k => b0.stages.length + 10 + k)) := by
  unfold add_variant_qc_jobs
  cases hv : (cfg.overwrite || ! file_exists store (vqsred_vcf_path cfg)) <;>
    simp only [infoStep_eq, annoStep_eq, freqStep_eq, rfAnnoStep_eq, hrf, if_true,
      if_false, Bool.false_eq_true, add_vqsr_eval_jobs_eq, finalMtStep_eq,
      exportPrepareStep_eq, exportFold_eq, newStagesVqsr, newEdgesVqsr, hv,
      add_vqsr_jobs, Builder.newJob, Builder.addJob, Builder.dependsOn, mkStage,
      cVqsr, cLoad, cVEval, cVFF, vqsr_filters_split_path, vqsr_score_bin_path,
      vqsr_score_bin_agg_path, vqsr_final_filter_ht_path,
      List.length_append, List.length_singleton, List.length_cons, List.length_nil,
      List.append_assoc, List.cons_append, List.nil_append, Nat.add_assoc,
      Nat.reduceAdd, Nat.add_zero, Nat.zero_add, List.map_cons, List.map_nil,
      String.reduceAppend, chromosomes_length]

/-!  Generic list helpers for reasoning about edge lists. -/

theorem filter_fst_map_nil (m j : Nat) (h : m ≠ j) (l : List Nat) :
    (l.map (fun u => (m, u))).filter (fun e => e.1 == j) = [] := by
  induction l with
  | nil => rfl
  | cons a t ih => simp [List.filter_cons, h, ih]

theorem filter_range_pair_nil (a t j : Nat) :
    ∀ m : Nat, (∀ k, k < m → j ≠ a + k) →
      ((List.range m).map (fun x => (a + x, t))).filter (fun e => e.1 == j) = [] := by
  intro m
  induction m with
  | zero => intro _; rfl
  | succ m ih =>
    intro h
    rw [List.range_succ, List.map_append, List.filter_append]
    rw [ih (fun k hk => h k (by omega))]
    have hne : a + m ≠ j := fun e => h m (by omega) e.symm
    simp [List.filter_cons, hne]

theorem filter_range_pair (a t k : Nat) :
    ∀ m : Nat, k < m →
      ((List.range m).map (fun x => (a + x, t))).filter (fun e => e.1 == a + k) =
        [(a + k, t)] := by
  intro m
  induction m with
  | zero => omega
  | succ m ih =>
    intro hk
    rw [List.range_succ, List.map_append, List.filter_append]
    by_cases hkm : k < m
    · rw [ih hkm]
      have hne : a + m ≠ a + k := by omega
      simp [List.filter_cons, hne]
    · have hkeq : k = m := by omega
      subst hkeq
      rw [filter_range_pair_nil a t (a + k) k (fun x hx => by omega)]
      simp [List.filter_cons]

theorem filter_ite_nil (j : Nat) (c : Bool) (l : List (Nat × Nat))
    (h : ∀ e ∈ l, e.1 ≠ j) :
    (if c then l else []).filter (fun e => e.1 == j) = [] := by
  cases c
  · rfl
  · simp only [if_true]
    exact List.filter_eq_nil_iff.2 (fun e he => by simpa using h e he)

theorem newEdgesRF_filter (store : String → Bool) (cfg : Config) (dep : List Nat)
    (n k : Nat) (hk : k < 24) :
    (newEdgesRF store cfg dep n).filter (fun e => e.1 == n + 9 + k) =
      [(n + 9 + k, n + 8)] := by
  unfold newEdgesRF
  simp only [List.filter_append]
  rw [filter_fst_map_nil n (n + 9 + k) (by omega) dep]
  rw [filter_ite_nil _ _ _ (fun e he => by
    rcases List.mem_map.1 he with ⟨x, _, rfl⟩; omega)]
  rw [filter_ite_nil _ _ _ (fun e he => by
    rcases List.mem_map.1 he with ⟨x, _, rfl⟩; omega)]
  rw [filter_ite_nil _ _ _ (fun e he => by
    simp at he; rcases he with ⟨rfl, _⟩ | ⟨rfl, _⟩ | ⟨rfl, _⟩ <;> omega)]
  rw [filter_ite_nil _ _ _ (fun e he => by
    simp at he; rcases he with ⟨rfl, _⟩; omega)]
  rw [filter_ite_nil _ _ _ (fun e he => by
    simp at he; rcases he with ⟨rfl, _⟩ | ⟨rfl, _⟩ | ⟨rfl, _⟩ <;> omega)]
  rw [filter_ite_nil _ _ _ (fun e he => by
    simp at he; rcases he with ⟨rfl, _⟩; omega)]
  rw [filter_ite_nil _ _ _ (fun e he => by
    simp at he; rcases he with ⟨rfl, _⟩; omega)]
  have h8 : ¬((n + 8 : Nat) = n + 9 + k) := by omega
  have hrange := filter_range_pair (n + 9) (n + 8) k 24 hk
  simp only [List.filter_cons, List.filter_nil]
  simp [h8, hrange]

theorem newEdgesVqsr_filter (store : String → Bool) (cfg : Config) (dep : List Nat)
    (n k : Nat) (hk : k < 24) :
    (newEdgesVqsr store cfg dep n).filter (fun e => e.1 == n + 10 + k) =
      [(n + 10 + k, n + 9)] := by
  unfold newEdgesVqsr
  simp only [List.filter_append]
  rw [filter_fst_map_nil n (n + 10 + k) (by omega) dep]
  rw [filter_ite_nil _ _ _ (fun e he => by
    rcases List.mem_map.1 he with ⟨x, _, rfl⟩; omega)]
  rw [filter_ite_nil _ _ _ (fun e he => by
    rcases List.mem_map.1 he with ⟨x, _, rfl⟩; omega)]
  rw [filter_ite_nil _ _ _ (fun e he => by
    simp at he; rcases he with ⟨rfl, _⟩ | ⟨rfl, _⟩ | ⟨rfl, _⟩ <;> omega)]
  rw [filter_ite_nil _ _ _ (fun e he => by
    rcases List.mem_map.1 he with ⟨x, _, rfl⟩; omega)]
  rw [filter_ite_nil _ _ _ (fun e he => by
    simp at he; rcases he with ⟨rfl, _⟩; omega)]
  rw [filter_ite_nil _ _ _ (fun e he => by
    simp at he; rcases he with ⟨rfl, _⟩ | ⟨rfl, _⟩ <;> omega)]
  rw [filter_ite_nil _ _ _ (fun e he => by
    simp at he; rcases he with ⟨rfl, _⟩; omega)]
  rw [filter_ite_nil _ _ _ (fun e he => by
    simp at he; rcases he with ⟨rfl, _⟩; omega)]
  have h232 : ∀ e ∈ [((n:Nat) + 7, n + 4), (n + 7, n + 3), (n + 7, n)],
      ¬(e.1 == n + 10 + k) = true := by
    intro e he; simp at he
    rcases he with ⟨rfl, _⟩ | ⟨rfl, _⟩ | ⟨rfl, _⟩ <;> simp <;> omega
  rw [List.filter_eq_nil_iff.2 h232]
  have h9 : ¬((n + 9 : Nat) = n + 10 + k) := by omega
  have hrange := filter_range_pair (n + 10) (n + 9) k 24 hk
  simp only [List.filter_cons, List.filter_nil]
  simp [h9, hrange]

theorem mem_ite_nil {α : Type} {x : α} {c : Bool} {l : List α}
    (h : x ∈ (if c then l else [])) : x ∈ l := by
  cases c
  · simp at h
  · simpa using h

theorem newEdgesRF_src_shape (store : String → Bool) (cfg : Config) (dep : List Nat)
    (n : Nat) :
    ∀ e ∈ newEdgesRF store cfg dep n, e.1 < n + 9 ∨ e.2 = n + 8 := by
  intro e he
  simp only [newEdgesRF, List.append_assoc, List.mem_append] at he
  rcases he with he | he | he | he | he | he | he | he | he | he
  · rcases List.mem_map.1 he with ⟨x, _, rfl⟩; left; omega
  · rcases List.mem_map.1 (mem_ite_nil he) with ⟨x, _, rfl⟩; left; omega
  · rcases List.mem_map.1 (mem_ite_nil he) with ⟨x, _, rfl⟩; left; omega
  · have h2 := mem_ite_nil he; simp only [List.mem_cons, List.not_mem_nil, or_false] at h2
    rcases h2 with rfl | rfl | rfl <;> (left; simp)
  · have h2 := mem_ite_nil he; simp only [List.mem_cons, List.not_mem_nil, or_false] at h2
    subst h2; left; simp
  · have h2 := mem_ite_nil he; simp only [List.mem_cons, List.not_mem_nil, or_false] at h2
    rcases h2 with rfl | rfl | rfl <;> (left; simp)
  · have h2 := mem_ite_nil he; simp only [List.mem_cons, List.not_mem_nil, or_false] at h2
    subst h2; left; simp
  · have h2 := mem_ite_nil he; simp only [List.mem_cons, List.not_mem_nil, or_false] at h2
    subst h2; left; simp
  · simp only [List.mem_cons, List.not_mem_nil, or_false] at he; subst he; left; simp
  · rcases List.mem_map.1 he with ⟨k, _, rfl⟩; right; rfl

theorem newEdgesVqsr_src_shape (store : String → Bool) (cfg : Config) (dep : List Nat)
    (n : Nat) :
    ∀ e ∈ newEdgesVqsr store cfg dep n, e.1 < n + 10 ∨ e.2 = n + 9 := by
  intro e he
  simp only [newEdgesVqsr, List.append_assoc, List.mem_append] at he
  rcases he with he | he | he | he | he | he | he | he | he | he | he | he
  · rcases List.mem_map.1 he with ⟨x, _, rfl⟩; left; omega
  · rcases List.mem_map.1 (mem_ite_nil he) with ⟨x, _, rfl⟩; left; omega
  · rcases List.mem_map.1 (mem_ite_nil he) with ⟨x, _, rfl⟩; left; omega
  · have h2 := mem_ite_nil he; simp only [List.mem_cons, List.not_mem_nil, or_false] at h2
    rcases h2 with rfl | rfl | rfl <;> (left; simp)
  · rcases List.mem_map.1 (mem_ite_nil he) with ⟨x, _, rfl⟩; left; omega
  · have h2 := mem_ite_nil he; simp only [List.mem_cons, List.not_mem_nil, or_false] at h2
    subst h2; left; simp
  · have h2 := mem_ite_nil he; simp only [List.mem_cons, List.not_mem_nil, or_false] at h2
    rcases h2 with rfl | rfl <;> (left; simp)
  · have h2 := mem_ite_nil he; simp only [List.mem_cons, List.not_mem_nil, or_false] at h2
    subst h2; left; simp
  · simp only [List.mem_cons, List.not_mem_nil, or_false] at he
    rcases he with rfl | rfl | rfl <;> (left; simp)
  · have h2 := mem_ite_nil he; simp only [List.mem_cons, List.not_mem_nil, or_false] at h2
    subst h2; left; simp
  · simp only [List.mem_cons, List.not_mem_nil, or_false] at he; subst he; left; simp
  · rcases List.mem_map.1 he with ⟨k, _, rfl⟩; right; rfl

/-- C1: for every call to add_variant_qc_jobs (either branch, any
overwrite flag, any store and any well-formed starting batch), the
per-chromosome fan-out creates exactly 24 export stages; the function
returns exactly this list (24 consecutive stage ids, whose stages are the
per-chromosome export stages); each export stage has exactly one
dependency edge, pointing at the shared export-prepare stage; and there
are no edges among the 24 export stages themselves. -/
theorem c1_export_fanout (store : String → Bool) (cfg : Config) (dep : List Nat)
    (u : String) (b0 : Builder) (hwf : b0.SrcWF) :
    (add_variant_qc_jobs store cfg dep u b0).2.length = 24 ∧
    (add_variant_qc_jobs store cfg dep u b0).2 =
      (List.range 24).map
        (fun k => b0.stages.length + (if cfg.run_rf then 9 else 10) + k) ∧
    (∃ s, (add_variant_qc_jobs store cfg dep u b0).1.stages[b0.stages.length +
        (if cfg.run_rf then 8 else 9)]? = some s ∧
      (s.name = "Making final VCF: prepare HT" ∨
       s.name = "Making final VCF: prepare HT [reuse]")) ∧
    (∀ j ∈ (add_variant_qc_jobs store cfg dep u b0).2,
      ∃ s, (add_variant_qc_jobs store cfg dep u b0).1.stages[j]? = some s ∧
        ∃ t, s.name = "Making final VCF: HT to VCF for chr" ++ t) ∧
    (∀ j ∈ (add_variant_qc_jobs store cfg dep u b0).2,
      (add_variant_qc_jobs store cfg dep u b0).1.edgesFrom j =
        [(j, b0.stages.length + (if cfg.run_rf then 8 else 9))]) ∧
    (∀ j ∈ (add_variant_qc_jobs store cfg dep u b0).2,
      ∀ j2 ∈ (add_variant_qc_jobs store cfg dep u b0).2,
        (j, j2) ∉ (add_variant_qc_jobs store cfg dep u b0).1.edges) := by
  cases hrf : cfg.run_rf
  case true =>
    rw [add_variant_qc_jobs_rf store cfg dep u b0 hrf]
    refine ⟨by simp, by simp, ?_, ?_, ?_, ?_⟩
    · refine ⟨mkStage (cPrep store cfg) "Making final VCF: prepare HT" (prepHtCmd cfg),
        ?_, ?_⟩
      · simp only [if_true]
        rw [List.getElem?_append_right (by omega)]
        have hi : b0.stages.length + 8 - b0.stages.length = 8 := by omega
        rw [hi]
        simp [newStagesRF]
      · cases h : cPrep store cfg <;> simp [mkStage, h]
    · intro j hj
      simp only [List.mem_map, List.mem_range] at hj
      obtain ⟨k, hk, rfl⟩ := hj
      simp only [reduceIte] at *
      rw [List.getElem?_append_right (by omega)]
      have hi : b0.stages.length + 9 + k - b0.stages.length = 9 + k := by omega
      rw [hi]
      unfold newStagesRF
      rw [List.getElem?_append_right (by simp)]
      have hck : k < chromosomes.length := by rw [chromosomes_length]; exact hk
      obtain ⟨ch, hch⟩ : ∃ ch, chromosomes[k]? = some ch :=
        ⟨_, List.getElem?_eq_getElem hck⟩
      simp only [List.length_cons, List.length_nil, List.getElem?_map]
      have hsub : (9 : Nat) + k - (0 + 1 + 1 + 1 + 1 + 1 + 1 + 1 + 1 + 1) = k := by omega
      rw [hsub, hch]
      refine ⟨_, rfl, ?_⟩
      cases h : cChr store cfg ch <;> simp only [mkStage, h, if_true, if_false,
        Bool.false_eq_true]
      · exact ⟨ch ++ " [reuse]", (String.append_assoc _ _ _)⟩
      · exact ⟨ch, rfl⟩
    · intro j hj
      simp only [List.mem_map, List.mem_range] at hj
      obtain ⟨k, hk, rfl⟩ := hj
      simp only [reduceIte]
      have hb0 : b0.edges.filter (fun e => e.1 == b0.stages.length + 9 + k) = [] := by
        refine List.filter_eq_nil_iff.2 (fun e he => ?_)
        have := hwf e he
        simp only [beq_iff_eq]
        omega
      show (b0.edges ++ newEdgesRF store cfg dep b0.stages.length).filter
          (fun e => e.1 == b0.stages.length + 9 + k) =
        [(b0.stages.length + 9 + k, b0.stages.length + 8)]
      rw [List.filter_append, hb0, newEdgesRF_filter store cfg dep _ k hk]
      simp
    · intro j hj j2 hj2 hmem
      simp only [List.mem_map, List.mem_range] at hj hj2
      obtain ⟨k, hk, rfl⟩ := hj
      obtain ⟨k2, hk2, rfl⟩ := hj2
      rcases List.mem_append.1 hmem with hm | hm
      · have := hwf _ hm
        simp at this
        omega
      · rcases newEdgesRF_src_shape store cfg dep _ _ hm with h | h
        · simp at h
        · simp at h; omega
  case false =>
    rw [add_variant_qc_jobs_vqsr store cfg dep u b0 hrf]
    refine ⟨by simp, by simp, ?_, ?_, ?_, ?_⟩
    · refine ⟨mkStage (cPrep store cfg) "Making final VCF: prepare HT" (prepHtCmd cfg),
        ?_, ?_⟩
      · simp only [Bool.false_eq_true, if_false]
        rw [List.getElem?_append_right (by omega)]
        have hi : b0.stages.length + 9 - b0.stages.length = 9 := by omega
        rw [hi]
        simp [newStagesVqsr]
      · cases h : cPrep store cfg <;> simp [mkStage, h]
    · intro j hj
      simp only [List.mem_map, List.mem_range] at hj
      obtain ⟨k, hk, rfl⟩ := hj
      simp only [reduceIte] at *
      rw [List.getElem?_append_right (by omega)]
      have hi : b0.stages.length + 10 + k - b0.stages.length = 10 + k := by omega
      rw [hi]
      unfold newStagesVqsr
      rw [List.getElem?_append_right (by simp)]
      have hck : k < chromosomes.length := by rw [chromosomes_length]; exact hk
      obtain ⟨ch, hch⟩ : ∃ ch, chromosomes[k]? = some ch :=
        ⟨_, List.getElem?_eq_getElem hck⟩
      simp only [List.length_cons, List.length_nil, List.getElem?_map]
      have hsub : (10 : Nat) + k - (0 + 1 + 1 + 1 + 1 + 1 + 1 + 1 + 1 + 1 + 1) = k := by
        omega
      rw [hsub, hch]
      refine ⟨_, rfl, ?_⟩
      cases h : cChr store cfg ch <;> simp only [mkStage, h, if_true, if_false,
        Bool.false_eq_true]
      · exact ⟨ch ++ " [reuse]", (String.append_assoc _ _ _)⟩
      · exact ⟨ch, rfl⟩
    · intro j hj
      simp only [List.mem_map, List.mem_range] at hj
      obtain ⟨k, hk, rfl⟩ := hj
      simp only [reduceIte]
      have hb0 : b0.edges.filter (fun e => e.1 == b0.stages.length + 10 + k) = [] := by
        refine List.filter_eq_nil_iff.2 (fun e he => ?_)
        have := hwf e he
        simp only [beq_iff_eq]
        omega
      show (b0.edges ++ newEdgesVqsr store cfg dep b0.stages.length).filter
          (fun e => e.1 == b0.stages.length + 10 + k) =
        [(b0.stages.length + 10 + k, b0.stages.length + 9)]
      rw [List.filter_append, hb0, newEdgesVqsr_filter store cfg dep _ k hk]
      simp
    · intro j hj j2 hj2 hmem
      simp only [List.mem_map, List.mem_range] at hj hj2
      obtain ⟨k, hk, rfl⟩ := hj
      obtain ⟨k2, hk2, rfl⟩ := hj2
      rcases List.mem_append.1 hmem with hm | hm
      · have := hwf _ hm
        simp at this
        omega
      · rcases newEdgesVqsr_src_shape store cfg dep _ _ hm with h | h
        · simp at h
        · simp at h; omega

theorem c1_export_fanout_witness :
    Builder.empty.SrcWF ∧
    (add_variant_qc_jobs storeAll cfgBase [] "abcd1234" Builder.empty).2.length = 24 :=
  have hwf : Builder.empty.SrcWF := fun e he => by simp [Builder.empty] at he
  ⟨hwf, (c1_export_fanout storeAll cfgBase [] "abcd1234" Builder.empty hwf).1⟩

theorem export_name_not_mem (ch : String) (L : List String)
    (hL : ∀ t ∈ L, t.length < 35) :
    ("Making final VCF: HT to VCF for chr" ++ ch) ∉ L ∧
    ("Making final VCF: HT to VCF for chr" ++ ch ++ " [reuse]") ∉ L := by
  have hp : ("Making final VCF: HT to VCF for chr" : String).length = 35 := rfl
  constructor
  · intro hm
    have h1 := hL _ hm
    rw [String.length_append, hp] at h1
    omega
  · intro hm
    have h1 := hL _ hm
    rw [String.length_append, String.length_append, hp] at h1
    omega

/-- C2: a run with run_rf=true creates no stage of the recalibration
(AS-VQSR) branch, and a run with run_rf=false creates no stage of the
random-forest branch: the two filtering branches are mutually exclusive
within one constructed graph. -/
theorem c2_branches_exclusive (store : String → Bool) (cfg : Config) (dep : List Nat)
    (u : String) (b0 : Builder) :
    (cfg.run_rf = true →
      ∀ s ∈ (add_variant_qc_jobs store cfg dep u b0).1.stages.drop b0.stages.length,
        s.name ∉ vqsrBranchNames) ∧
    (cfg.run_rf = false →
      ∀ s ∈ (add_variant_qc_jobs store cfg dep u b0).1.stages.drop b0.stages.length,
        s.name ∉ rfBranchNames) := by
  constructor
  · intro hrf s hs
    rw [add_variant_qc_jobs_rf store cfg dep u b0 hrf] at hs
    simp only [List.drop_left] at hs
    simp only [newStagesRF, List.mem_append, List.mem_cons, List.not_mem_nil, or_false,
      List.mem_map] at hs
    rcases hs with (rfl | rfl | rfl | rfl | rfl | rfl | rfl | rfl | rfl) | ⟨ch, hch, rfl⟩
    · cases h : cInfo store cfg <;> simp only [mkStage, if_true, if_false, Bool.false_eq_true] <;> decide
    · cases h : cAnno store cfg <;> simp only [mkStage, if_true, if_false, Bool.false_eq_true] <;> decide
    · cases h : cFreq store cfg <;> simp only [mkStage, if_true, if_false, Bool.false_eq_true] <;> decide
    · cases h : cRfAnno store cfg <;> simp only [mkStage, if_true, if_false, Bool.false_eq_true] <;> decide
    · cases h : cRf store cfg <;> simp only [mkStage, if_true, if_false, Bool.false_eq_true] <;> decide
    · cases h : cRfEval store cfg <;> simp only [mkStage, if_true, if_false, Bool.false_eq_true] <;> decide
    · cases h : cRfFF store cfg <;> simp only [mkStage, if_true, if_false, Bool.false_eq_true] <;> decide
    · cases h : cFinalMt store cfg <;> simp only [mkStage, if_true, if_false, Bool.false_eq_true] <;> decide
    · cases h : cPrep store cfg <;> simp only [mkStage, if_true, if_false, Bool.false_eq_true] <;> decide
    · cases h : cChr store cfg ch <;>
        simp only [mkStage, if_true, if_false, Bool.false_eq_true]
      · exact (export_name_not_mem ch _ (by decide)).2
      · exact (export_name_not_mem ch _ (by decide)).1
  · intro hrf s hs
    rw [add_variant_qc_jobs_vqsr store cfg dep u b0 hrf] at hs
    simp only [List.drop_left] at hs
    simp only [newStagesVqsr, List.mem_append, List.mem_cons, List.not_mem_nil, or_false,
      List.mem_map] at hs
    rcases hs with (rfl | rfl | rfl | rfl | rfl | rfl | rfl | rfl | rfl | rfl) | ⟨ch, hch, rfl⟩
    · cases h : cInfo store cfg <;> simp only [mkStage, if_true, if_false, Bool.false_eq_true] <;> decide
    · cases h : cAnno store cfg <;> simp only [mkStage, if_true, if_false, Bool.false_eq_true] <;> decide
    · cases h : cFreq store cfg <;> simp only [mkStage, if_true, if_false, Bool.false_eq_true] <;> decide
    · cases h : cRfAnno store cfg <;> simp only [mkStage, if_true, if_false, Bool.false_eq_true] <;> decide
    · cases h : cVqsr store cfg <;> simp only [mkStage, if_true, if_false, Bool.false_eq_true] <;> decide
    · cases h : cLoad store cfg <;> simp only [mkStage, if_true, if_false, Bool.false_eq_true] <;> decide
    · cases h : cVEval store cfg <;> simp only [mkStage, if_true, if_false, Bool.false_eq_true] <;> decide
    · cases h : cVFF store cfg <;> simp only [mkStage, if_true, if_false, Bool.false_eq_true] <;> decide
    · cases h : cFinalMt store cfg <;> simp only [mkStage, if_true, if_false, Bool.false_eq_true] <;> decide
    · cases h : cPrep store cfg <;> simp only [mkStage, if_true, if_false, Bool.false_eq_true] <;> decide
    · cases h : cChr store cfg ch <;>
        simp only [mkStage, if_true, if_false, Bool.false_eq_true]
      · exact (export_name_not_mem ch _ (by decide)).2
      · exact (export_name_not_mem ch _ (by decide)).1

theorem c2_branches_exclusive_witness :
    cfgBase.run_rf = false ∧
    ∀ s ∈ (add_variant_qc_jobs storeNone cfgBase [] "abcd1234" Builder.empty).1.stages.drop
        Builder.empty.stages.length,
      s.name ∉ rfBranchNames :=
  ⟨rfl, (c2_branches_exclusive storeNone cfgBase [] "abcd1234" Builder.empty).2 rfl⟩

theorem mem_ite_elim {α : Type} {x : α} {c : Bool} {l : List α}
    (h : x ∈ (if c then l else [])) : c = true ∧ x ∈ l := by
  cases c
  · simp at h
  · exact ⟨rfl, by simpa using h⟩

theorem mkStage_isReused (c : Bool) (nm cmd : String) :
    (mkStage c nm cmd).isReused = !c := by
  cases c <;> simp [mkStage, Stage.isReused]

theorem filter_fst_map_self (m : Nat) (l : List Nat) :
    (l.map (fun u => (m, u))).filter (fun e => e.1 == m) = l.map (fun u => (m, u)) := by
  induction l with
  | nil => rfl
  | cons a t ih => simp [List.filter_cons, ih]

theorem getElem_append_off {α : Type} (l1 l2 : List α) (k : Nat) :
    (l1 ++ l2)[l1.length + k]? = l2[k]? := by
  rw [List.getElem?_append_right (by omega)]
  congr 1
  omega

theorem newEdgesRF_src_cond (store : String → Bool) (cfg : Config) (dep : List Nat)
    (n : Nat) :
    ∀ e ∈ newEdgesRF store cfg dep n,
      e.1 = n ∨ (e.1 = n + 1 ∧ cAnno store cfg = true) ∨
      (e.1 = n + 2 ∧ cFreq store cfg = true) ∨
      (e.1 = n + 3 ∧ cRfAnno store cfg = true) ∨
      (e.1 = n + 4 ∧ cRf store cfg = true) ∨
      (e.1 = n + 5 ∧ cRfEval store cfg = true) ∨
      (e.1 = n + 6 ∧ cRfFF store cfg = true) ∨
      (e.1 = n + 7 ∧ cFinalMt store cfg = true) ∨
      e.1 = n + 8 ∨ (∃ k, k < 24 ∧ e.1 = n + 9 + k) := by
  intro e he
  simp only [newEdgesRF, List.append_assoc, List.mem_append] at he
  rcases he with he | he | he | he | he | he | he | he | he | he
  · rcases List.mem_map.1 he with ⟨x, _, rfl⟩; exact Or.inl rfl
  · obtain ⟨hc, hm⟩ := mem_ite_elim he
    rcases List.mem_map.1 hm with ⟨x, _, rfl⟩
    exact Or.inr (Or.inl ⟨rfl, hc⟩)
  · obtain ⟨hc, hm⟩ := mem_ite_elim he
    rcases List.mem_map.1 hm with ⟨x, _, rfl⟩
    exact Or.inr (Or.inr (Or.inl ⟨rfl, hc⟩))
  · obtain ⟨hc, hm⟩ := mem_ite_elim he
    simp only [List.mem_cons, List.not_mem_nil, or_false] at hm
    rcases hm with rfl | rfl | rfl <;>
      exact Or.inr (Or.inr (Or.inr (Or.inl ⟨rfl, hc⟩)))
  · obtain ⟨hc, hm⟩ := mem_ite_elim he
    simp only [List.mem_cons, List.not_mem_nil, or_false] at hm
    subst hm
    exact Or.inr (Or.inr (Or.inr (Or.inr (Or.inl ⟨rfl, hc⟩))))
  · obtain ⟨hc, hm⟩ := mem_ite_elim he
    simp only [List.mem_cons, List.not_mem_nil, or_false] at hm
    rcases hm with rfl | rfl | rfl <;>
      exact Or.inr (Or.inr (Or.inr (Or.inr (Or.inr (Or.inl ⟨rfl, hc⟩)))))
  · obtain ⟨hc, hm⟩ := mem_ite_elim he
    simp only [List.mem_cons, List.not_mem_nil, or_false] at hm
    subst hm
    exact Or.inr (Or.inr (Or.inr (Or.inr (Or.inr (Or.inr (Or.inl ⟨rfl, hc⟩))))))
  · obtain ⟨hc, hm⟩ := mem_ite_elim he
    simp only [List.mem_cons, List.not_mem_nil, or_false] at hm
    subst hm
    exact Or.inr (Or.inr (Or.inr (Or.inr (Or.inr (Or.inr (Or.inr (Or.inl ⟨rfl, hc⟩)))))))
  · simp only [List.mem_cons, List.not_mem_nil, or_false] at he
    subst he
    exact Or.inr (Or.inr (Or.inr (Or.inr (Or.inr (Or.inr (Or.inr (Or.inr (Or.inl rfl))))))))
  · rcases List.mem_map.1 he with ⟨k, hk, rfl⟩
    refine Or.inr (Or.inr (Or.inr (Or.inr (Or.inr (Or.inr (Or.inr (Or.inr (Or.inr
      ⟨k, List.mem_range.1 hk, rfl⟩))))))))

theorem newEdgesVqsr_src_cond (store : String → Bool) (cfg : Config) (dep : List Nat)
    (n : Nat) :
    ∀ e ∈ newEdgesVqsr store cfg dep n,
      e.1 = n ∨ (e.1 = n + 1 ∧ cAnno store cfg = true) ∨
      (e.1 = n + 2 ∧ cFreq store cfg = true) ∨
      (e.1 = n + 3 ∧ cRfAnno store cfg = true) ∨
      (e.1 = n + 4 ∧ cVqsr store cfg = true) ∨
      (e.1 = n + 5 ∧ cLoad store cfg = true) ∨
      (e.1 = n + 6 ∧ cVEval store cfg = true) ∨
      e.1 = n + 7 ∨
      (e.1 = n + 8 ∧ cFinalMt store cfg = true) ∨
      e.1 = n + 9 ∨ (∃ k, k < 24 ∧ e.1 = n + 10 + k) := by
  intro e he
  simp only [newEdgesVqsr, List.append_assoc, List.mem_append] at he
  rcases he with he | he | he | he | he | he | he | he | he | he | he | he
  · rcases List.mem_map.1 he with ⟨x, _, rfl⟩; exact Or.inl rfl
  · obtain ⟨hc, hm⟩ := mem_ite_elim he
    rcases List.mem_map.1 hm with ⟨x, _, rfl⟩
    exact Or.inr (Or.inl ⟨rfl, hc⟩)
  · obtain ⟨hc, hm⟩ := mem_ite_elim he
    rcases List.mem_map.1 hm with ⟨x, _, rfl⟩
    exact Or.inr (Or.inr (Or.inl ⟨rfl, hc⟩))
  · obtain ⟨hc, hm⟩ := mem_ite_elim he
    simp only [List.mem_cons, List.not_mem_nil, or_false] at hm
    rcases hm with rfl | rfl | rfl <;>
      exact Or.inr (Or.inr (Or.inr (Or.inl ⟨rfl, hc⟩)))
  · obtain ⟨hc, hm⟩ := mem_ite_elim he
    rcases List.mem_map.1 hm with ⟨x, _, rfl⟩
    exact Or.inr (Or.inr (Or.inr (Or.inr (Or.inl ⟨rfl, hc⟩))))
  · obtain ⟨hc, hm⟩ := mem_ite_elim he
    simp only [List.mem_cons, List.not_mem_nil, or_false] at hm
    subst hm
    exact Or.inr (Or.inr (Or.inr (Or.inr (Or.inr (Or.inl ⟨rfl, hc⟩)))))
  · obtain ⟨hc, hm⟩ := mem_ite_elim he
    simp only [List.mem_cons, List.not_mem_nil, or_false] at hm
    rcases hm with rfl | rfl <;>
      exact Or.inr (Or.inr (Or.inr (Or.inr (Or.inr (Or.inr (Or.inl ⟨rfl, hc⟩))))))
  · obtain ⟨hc, hm⟩ := mem_ite_elim he
    simp only [List.mem_cons, List.not_mem_nil, or_false] at hm
    subst hm
    exact Or.inr (Or.inr (Or.inr (Or.inr (Or.inr (Or.inr (Or.inr (Or.inl rfl)))))))
  · simp only [List.mem_cons, List.not_mem_nil, or_false] at he
    rcases he with rfl | rfl | rfl <;>
      exact Or.inr (Or.inr (Or.inr (Or.inr (Or.inr (Or.inr (Or.inr (Or.inl rfl)))))))
  · obtain ⟨hc, hm⟩ := mem_ite_elim he
    simp only [List.mem_cons, List.not_mem_nil, or_false] at hm
    subst hm
    exact Or.inr (Or.inr (Or.inr (Or.inr (Or.inr (Or.inr (Or.inr (Or.inr
      (Or.inl ⟨rfl, hc⟩))))))))
  · simp only [List.mem_cons, List.not_mem_nil, or_false] at he
    subst he
    exact Or.inr (Or.inr (Or.inr (Or.inr (Or.inr (Or.inr (Or.inr (Or.inr (Or.inr
      (Or.inl rfl)))))))))
  · rcases List.mem_map.1 he with ⟨k, hk, rfl⟩
    exact Or.inr (Or.inr (Or.inr (Or.inr (Or.inr (Or.inr (Or.inr (Or.inr (Or.inr
      (Or.inr ⟨k, List.mem_range.1 hk, rfl⟩)))))))))

theorem newEdgesRF_filter0 (store : String → Bool) (cfg : Config) (dep : List Nat)
    (n : Nat) :
    (newEdgesRF store cfg dep n).filter (fun e => e.1 == n) =
      dep.map (fun u => (n, u)) := by
  unfold newEdgesRF
  simp only [List.filter_append]
  rw [filter_fst_map_self n dep]
  rw [filter_ite_nil _ _ _ (fun e he => by
    rcases List.mem_map.1 he with ⟨x, _, rfl⟩; omega)]
  rw [filter_ite_nil _ _ _ (fun e he => by
    rcases List.mem_map.1 he with ⟨x, _, rfl⟩; omega)]
  rw [filter_ite_nil _ _ _ (fun e he => by
    simp at he; rcases he with ⟨rfl, _⟩ | ⟨rfl, _⟩ | ⟨rfl, _⟩ <;> omega)]
  rw [filter_ite_nil _ _ _ (fun e he => by
    simp at he; rcases he with ⟨rfl, _⟩; omega)]
  rw [filter_ite_nil _ _ _ (fun e he => by
    simp at he; rcases he with ⟨rfl, _⟩ | ⟨rfl, _⟩ | ⟨rfl, _⟩ <;> omega)]
  rw [filter_ite_nil _ _ _ (fun e he => by
    simp at he; rcases he with ⟨rfl, _⟩; omega)]
  rw [filter_ite_nil _ _ _ (fun e he => by
    simp at he; rcases he with ⟨rfl, _⟩; omega)]
  rw [filter_range_pair_nil (n + 9) (n + 8) n 24 (fun x hx => by omega)]
  have h8 : ¬((n + 8 : Nat) = n) := by omega
  simp [List.filter_cons, h8]

theorem newEdgesRF_filter8 (store : String → Bool) (cfg : Config) (dep : List Nat)
    (n : Nat) :
    (newEdgesRF store cfg dep n).filter (fun e => e.1 == n + 8) =
      [(n + 8, n + 7)] := by
  unfold newEdgesRF
  simp only [List.filter_append]
  rw [filter_fst_map_nil n (n + 8) (by omega) dep]
  rw [filter_ite_nil _ _ _ (fun e he => by
    rcases List.mem_map.1 he with ⟨x, _, rfl⟩; omega)]
  rw [filter_ite_nil _ _ _ (fun e he => by
    rcases List.mem_map.1 he with ⟨x, _, rfl⟩; omega)]
  rw [filter_ite_nil _ _ _ (fun e he => by
    simp at he; rcases he with ⟨rfl, _⟩ | ⟨rfl, _⟩ | ⟨rfl, _⟩ <;> omega)]
  rw [filter_ite_nil _ _ _ (fun e he => by
    simp at he; rcases he with ⟨rfl, _⟩; omega)]
  rw [filter_ite_nil _ _ _ (fun e he => by
    simp at he; rcases he with ⟨rfl, _⟩ | ⟨rfl, _⟩ | ⟨rfl, _⟩ <;> omega)]
  rw [filter_ite_nil _ _ _ (fun e he => by
    simp at he; rcases he with ⟨rfl, _⟩; omega)]
  rw [filter_ite_nil _ _ _ (fun e he => by
    simp at he; rcases he with ⟨rfl, _⟩; omega)]
  rw [filter_range_pair_nil (n + 9) (n + 8) (n + 8) 24 (fun x hx => by omega)]
  simp [List.filter_cons]

theorem newEdgesVqsr_filter0 (store : String → Bool) (cfg : Config) (dep : List Nat)
    (n : Nat) :
    (newEdgesVqsr store cfg dep n).filter (fun e => e.1 == n) =
      dep.map (fun u => (n, u)) := by
  unfold newEdgesVqsr
  simp only [List.filter_append]
  rw [filter_fst_map_self n dep]
  rw [filter_ite_nil _ _ _ (fun e he => by
    rcases List.mem_map.1 he with ⟨x, _, rfl⟩; omega)]
  rw [filter_ite_nil _ _ _ (fun e he => by
    rcases List.mem_map.1 he with ⟨x, _, rfl⟩; omega)]
  rw [filter_ite_nil _ _ _ (fun e he => by
    simp at he; rcases he with ⟨rfl, _⟩ | ⟨rfl, _⟩ | ⟨rfl, _⟩ <;> omega)]
  rw [filter_ite_nil _ _ _ (fun e he => by
    rcases List.mem_map.1 he with ⟨x, _, rfl⟩; omega)]
  rw [filter_ite_nil _ _ _ (fun e he => by
    simp at he; rcases he with ⟨rfl, _⟩; omega)]
  rw [filter_ite_nil _ _ _ (fun e he => by
    simp at he; rcases he with ⟨rfl, _⟩ | ⟨rfl, _⟩ <;> omega)]
  rw [filter_ite_nil _ _ _ (fun e he => by
    simp at he; rcases he with ⟨rfl, _⟩; omega)]
  rw [filter_ite_nil _ _ _ (fun e he => by
    simp at he; rcases he with ⟨rfl, _⟩; omega)]
  rw [filter_range_pair_nil (n + 10) (n + 9) n 24 (fun x hx => by omega)]
  have h7 : ¬((n + 7 : Nat) = n) := by omega
  have h9 : ¬((n + 9 : Nat) = n) := by omega
  simp [List.filter_cons, h7, h9]

theorem newEdgesVqsr_filter9 (store : String → Bool) (cfg : Config) (dep : List Nat)
    (n : Nat) :
    (newEdgesVqsr store cfg dep n).filter (fun e => e.1 == n + 9) =
      [(n + 9, n + 8)] := by
  unfold newEdgesVqsr
  simp only [List.filter_append]
  rw [filter_fst_map_nil n (n + 9) (by omega) dep]
  rw [filter_ite_nil _ _ _ (fun e he => by
    rcases List.mem_map.1 he with ⟨x, _, rfl⟩; omega)]
  rw [filter_ite_nil _ _ _ (fun e he => by
    rcases List.mem_map.1 he with ⟨x, _, rfl⟩; omega)]
  rw [filter_ite_nil _ _ _ (fun e he => by
    simp at he; rcases he with ⟨rfl, _⟩ | ⟨rfl, _⟩ | ⟨rfl, _⟩ <;> omega)]
  rw [filter_ite_nil _ _ _ (fun e he => by
    rcases List.mem_map.1 he with ⟨x, _, rfl⟩; omega)]
  rw [filter_ite_nil _ _ _ (fun e he => by
    simp at he; rcases he with ⟨rfl, _⟩; omega)]
  rw [filter_ite_nil _ _ _ (fun e he => by
    simp at he; rcases he with ⟨rfl, _⟩ | ⟨rfl, _⟩ <;> omega)]
  rw [filter_ite_nil _ _ _ (fun e he => by
    simp at he; rcases he with ⟨rfl, _⟩; omega)]
  rw [filter_ite_nil _ _ _ (fun e he => by
    simp at he; rcases he with ⟨rfl, _⟩; omega)]
  rw [filter_range_pair_nil (n + 10) (n + 9) (n + 9) 24 (fun x hx => by omega)]
  have h7 : ¬((n + 7 : Nat) = n + 9) := by omega
  simp [List.filter_cons, h7]

theorem newEdgesVqsr_filter7 (store : String → Bool) (cfg : Config) (dep : List Nat)
    (n : Nat) (hvff : cVFF store cfg = false) :
    (newEdgesVqsr store cfg dep n).filter (fun e => e.1 == n + 7) =
      [(n + 7, n + 4), (n + 7, n + 3), (n + 7, n)] := by
  unfold newEdgesVqsr
  simp only [List.filter_append, hvff, Bool.false_eq_true, if_false]
  rw [filter_fst_map_nil n (n + 7) (by omega) dep]
  rw [filter_ite_nil _ _ _ (fun e he => by
    rcases List.mem_map.1 he with ⟨x, _, rfl⟩; omega)]
  rw [filter_ite_nil _ _ _ (fun e he => by
    rcases List.mem_map.1 he with ⟨x, _, rfl⟩; omega)]
  rw [filter_ite_nil _ _ _ (fun e he => by
    simp at he; rcases he with ⟨rfl, _⟩ | ⟨rfl, _⟩ | ⟨rfl, _⟩ <;> omega)]
  rw [filter_ite_nil _ _ _ (fun e he => by
    rcases List.mem_map.1 he with ⟨x, _, rfl⟩; omega)]
  rw [filter_ite_nil _ _ _ (fun e he => by
    simp at he; rcases he with ⟨rfl, _⟩; omega)]
  rw [filter_ite_nil _ _ _ (fun e he => by
    simp at he; rcases he with ⟨rfl, _⟩ | ⟨rfl, _⟩ <;> omega)]
  rw [filter_ite_nil _ _ _ (fun e he => by
    simp at he; rcases he with ⟨rfl, _⟩; omega)]
  rw [filter_range_pair_nil (n + 10) (n + 9) (n + 7) 24 (fun x hx => by omega)]
  have h9 : ¬((n + 9 : Nat) = n + 7) := by omega
  simp [List.filter_cons, h9]

theorem stages_rf (store : String → Bool) (cfg : Config) (dep : List Nat) (u : String)
    (b0 : Builder) (hrf : cfg.run_rf = true) :
    (add_variant_qc_jobs store cfg dep u b0).1.stages =
      b0.stages ++ newStagesRF store cfg u := by
  rw [add_variant_qc_jobs_rf store cfg dep u b0 hrf]

theorem edges_rf (store : String → Bool) (cfg : Config) (dep : List Nat) (u : String)
    (b0 : Builder) (hrf : cfg.run_rf = true) :
    (add_variant_qc_jobs store cfg dep u b0).1.edges =
      b0.edges ++ newEdgesRF store cfg dep b0.stages.length := by
  rw [add_variant_qc_jobs_rf store cfg dep u b0 hrf]

theorem stages_vqsr (store : String → Bool) (cfg : Config) (dep : List Nat) (u : String)
    (b0 : Builder) (hrf : cfg.run_rf = false) :
    (add_variant_qc_jobs store cfg dep u b0).1.stages =
      b0.stages ++ newStagesVqsr store cfg := by
  rw [add_variant_qc_jobs_vqsr store cfg dep u b0 hrf]

theorem edges_vqsr (store : String → Bool) (cfg : Config) (dep : List Nat) (u : String)
    (b0 : Builder) (hrf : cfg.run_rf = false) :
    (add_variant_qc_jobs store cfg dep u b0).1.edges =
      b0.edges ++ newEdgesVqsr store cfg dep b0.stages.length := by
  rw [add_variant_qc_jobs_vqsr store cfg dep u b0 hrf]

/-- C5 counterexample: with every artifact present and overwrite=false,
the export-prepare stage is built in REUSED form yet still carries a
dependency edge (to the final-MT stage, id 8), contradicting the claim
that a reused placeholder carries no dependency edges. -/
theorem c5_counterexample :
    (add_variant_qc_jobs storeAll cfgBase [] "abcd1234" Builder.empty).1.stages[9]? =
      some ⟨"Making final VCF: prepare HT [reuse]", none⟩ ∧
    (9, 8) ∈ (add_variant_qc_jobs storeAll cfgBase [] "abcd1234" Builder.empty).1.edges := by
  constructor
  · rfl
  · decide

/-- C5 amended: a stage built in REUSED form carries no dependency edges,
except the stages whose edge attachment the source performs outside the
executed branch — the info stage (run-level dependency list, lines 78-79),
the export-prepare stage (line 264), the per-chromosome export stages
(line 284) and the AS-VQSR final-filter stage (line 232) — whose REUSED
placeholders carry those same edges. -/
theorem c5_amended_reused_edges (store : String → Bool) (cfg : Config) (dep : List Nat)
    (u : String) (b0 : Builder) (hwf : b0.SrcWF) :
    (∀ k ∈ (if cfg.run_rf then [1, 2, 3, 4, 5, 6, 7] else ([1, 2, 3, 4, 5, 6, 8] : List Nat)),
      ∀ s, (add_variant_qc_jobs store cfg dep u b0).1.stages[b0.stages.length + k]? =
          some s →
        s.isReused = true →
        (add_variant_qc_jobs store cfg dep u b0).1.edgesFrom (b0.stages.length + k) = []) ∧
    ((add_variant_qc_jobs store cfg dep u b0).1.edgesFrom b0.stages.length =
      dep.map (fun d => (b0.stages.length, d))) ∧
    ((add_variant_qc_jobs store cfg dep u b0).1.edgesFrom
        (b0.stages.length + (if cfg.run_rf then 8 else 9)) =
      [(b0.stages.length + (if cfg.run_rf then 8 else 9),
        b0.stages.length + (if cfg.run_rf then 7 else 8))]) ∧
    (∀ k, k < 24 →
      (add_variant_qc_jobs store cfg dep u b0).1.edgesFrom
          (b0.stages.length + (if cfg.run_rf then 9 else 10) + k) =
        [(b0.stages.length + (if cfg.run_rf then 9 else 10) + k,
          b0.stages.length + (if cfg.run_rf then 8 else 9))]) ∧
    (cfg.run_rf = false →
      ∀ s, (add_variant_qc_jobs store cfg dep u b0).1.stages[b0.stages.length + 7]? =
          some s →
        s.isReused = true →
        (add_variant_qc_jobs store cfg dep u b0).1.edgesFrom (b0.stages.length + 7) =
          [(b0.stages.length + 7, b0.stages.length + 4),
           (b0.stages.length + 7, b0.stages.length + 3),
           (b0.stages.length + 7, b0.stages.length)]) := by
  refine ⟨?_, ?_, ?_, ?_, ?_⟩
  · intro k hk s hsk hre
    cases hrf : cfg.run_rf
    case false =>
      simp only [hrf, Bool.false_eq_true, if_false] at hk
      rw [stages_vqsr store cfg dep u b0 hrf] at hsk
      fin_cases hk <;>
        (rw [getElem_append_off] at hsk
         simp [newStagesVqsr] at hsk
         subst hsk
         rw [mkStage_isReused] at hre
         simp at hre
         unfold Builder.edgesFrom
         rw [edges_vqsr store cfg dep u b0 hrf, List.filter_append]
         refine List.append_eq_nil.2 ⟨?_, ?_⟩
         · exact List.filter_eq_nil_iff.2 (fun e he => by
             have := hwf e he; simp only [beq_iff_eq]; omega)
         · refine List.filter_eq_nil_iff.2 (fun e he => ?_)
           simp only [beq_iff_eq]
           intro heq
           rcases newEdgesVqsr_src_cond store cfg dep b0.stages.length e he with
             h | ⟨h, hc⟩ | ⟨h, hc⟩ | ⟨h, hc⟩ | ⟨h, hc⟩ | ⟨h, hc⟩ | ⟨h, hc⟩ | h |
             ⟨h, hc⟩ | h | ⟨kk, hkk, h⟩ <;>
             first
               | omega
               | simp [hre] at hc)
    case true =>
      simp only [hrf, if_true] at hk
      rw [stages_rf store cfg dep u b0 hrf] at hsk
      fin_cases hk <;>
        (rw [getElem_append_off] at hsk
         simp [newStagesRF] at hsk
         subst hsk
         rw [mkStage_isReused] at hre
         simp at hre
         unfold Builder.edgesFrom
         rw [edges_rf store cfg dep u b0 hrf, List.filter_append]
         refine List.append_eq_nil.2 ⟨?_, ?_⟩
         · exact List.filter_eq_nil_iff.2 (fun e he => by
             have := hwf e he; simp only [beq_iff_eq]; omega)
         · refine List.filter_eq_nil_iff.2 (fun e he => ?_)
           simp only [beq_iff_eq]
           intro heq
           rcases newEdgesRF_src_cond store cfg dep b0.stages.length e he with
             h | ⟨h, hc⟩ | ⟨h, hc⟩ | ⟨h, hc⟩ | ⟨h, hc⟩ | ⟨h, hc⟩ | ⟨h, hc⟩ | ⟨h, hc⟩ |
             h | ⟨kk, hkk, h⟩ <;>
             first
               | omega
               | simp [hre] at hc)
  · cases hrf : cfg.run_rf
    case false =>
      unfold Builder.edgesFrom
      rw [edges_vqsr store cfg dep u b0 hrf, List.filter_append]
      rw [List.filter_eq_nil_iff.2 (fun e he => by
        have := hwf e he; simp only [beq_iff_eq]; omega)]
      rw [newEdgesVqsr_filter0]
      simp
    case true =>
      unfold Builder.edgesFrom
      rw [edges_rf store cfg dep u b0 hrf, List.filter_append]
      rw [List.filter_eq_nil_iff.2 (fun e he => by
        have := hwf e he; simp only [beq_iff_eq]; omega)]
      rw [newEdgesRF_filter0]
      simp
  · cases hrf : cfg.run_rf
    case false =>
      simp only [Bool.false_eq_true, if_false]
      unfold Builder.edgesFrom
      rw [edges_vqsr store cfg dep u b0 hrf, List.filter_append]
      rw [List.filter_eq_nil_iff.2 (fun e he => by
        have := hwf e he; simp only [beq_iff_eq]; omega)]
      rw [newEdgesVqsr_filter9]
      simp
    case true =>
      simp only [if_true]
      unfold Builder.edgesFrom
      rw [edges_rf store cfg dep u b0 hrf, List.filter_append]
      rw [List.filter_eq_nil_iff.2 (fun e he => by
        have := hwf e he; simp only [beq_iff_eq]; omega)]
      rw [newEdgesRF_filter8]
      simp
  · intro k hk
    cases hrf : cfg.run_rf
    case false =>
      simp only [Bool.false_eq_true, if_false]
      unfold Builder.edgesFrom
      rw [edges_vqsr store cfg dep u b0 hrf, List.filter_append]
      rw [List.filter_eq_nil_iff.2 (fun e he => by
        have := hwf e he; simp only [beq_iff_eq]; omega)]
      rw [newEdgesVqsr_filter store cfg dep _ k hk]
      simp
    case true =>
      simp only [if_true]
      unfold Builder.edgesFrom
      rw [edges_rf store cfg dep u b0 hrf, List.filter_append]
      rw [List.filter_eq_nil_iff.2 (fun e he => by
        have := hwf e he; simp only [beq_iff_eq]; omega)]
      rw [newEdgesRF_filter store cfg dep _ k hk]
      simp
  · intro hrf s hsk hre
    rw [stages_vqsr store cfg dep u b0 hrf] at hsk
    rw [getElem_append_off] at hsk
    simp [newStagesVqsr] at hsk
    subst hsk
    rw [mkStage_isReused] at hre
    simp at hre
    unfold Builder.edgesFrom
    rw [edges_vqsr store cfg dep u b0 hrf, List.filter_append]
    rw [List.filter_eq_nil_iff.2 (fun e he => by
      have := hwf e he; simp only [beq_iff_eq]; omega)]
    rw [newEdgesVqsr_filter7 store cfg dep _ hre]
    simp

theorem c5_amended_reused_edges_witness :
    Builder.empty.SrcWF ∧
    (add_variant_qc_jobs storeAll cfgBase [] "abcd1234" Builder.empty).1.edgesFrom
        Builder.empty.stages.length =
      List.map (fun d => (Builder.empty.stages.length, d)) [] :=
  have hwf : Builder.empty.SrcWF := fun e he => by simp [Builder.empty] at he
  ⟨hwf, (c5_amended_reused_edges storeAll cfgBase [] "abcd1234" Builder.empty hwf).2.1⟩

/-- C4: with overwrite=false a stage is REUSED iff every one of its
listed target paths exists: the Artifact Existence Oracle law, and in
particular the info stage (targets info.ht and info-split.ht) and the
export-prepare stage (targets export table and VCF header file), each
reused exactly when both its targets exist (executed when one is
missing). -/
theorem c4_reuse_iff_targets (store : String → Bool) (cfg : Config) (dep : List Nat)
    (u : String) (b0 : Builder) (how : cfg.overwrite = false) :
    (∀ A : List String, can_reuse store A false = A.all store) ∧
    (∀ s, (add_variant_qc_jobs store cfg dep u b0).1.stages[b0.stages.length + 0]? =
        some s →
      s.isReused = (store (info_ht_path cfg) && store (info_split_ht_path cfg))) ∧
    (∀ s, (add_variant_qc_jobs store cfg dep u b0).1.stages[b0.stages.length +
        (if cfg.run_rf then 8 else 9)]? = some s →
      s.isReused = (store (export_ht_path cfg) && store (export_vcf_header_txt cfg))) := by
  have hci : cInfo store cfg =
      !(store (info_ht_path cfg) && store (info_split_ht_path cfg)) := by
    simp [cInfo, can_reuse, how]
  have hcp : cPrep store cfg =
      !(store (export_ht_path cfg) && store (export_vcf_header_txt cfg)) := by
    simp [cPrep, can_reuse, how]
  refine ⟨fun A => by simp [can_reuse], ?_, ?_⟩
  · intro s hsk
    cases hrf : cfg.run_rf
    case false =>
      rw [stages_vqsr store cfg dep u b0 hrf, getElem_append_off] at hsk
      simp [newStagesVqsr] at hsk
      subst hsk
      rw [mkStage_isReused, hci, Bool.not_not]
    case true =>
      rw [stages_rf store cfg dep u b0 hrf, getElem_append_off] at hsk
      simp [newStagesRF] at hsk
      subst hsk
      rw [mkStage_isReused, hci, Bool.not_not]
  · intro s hsk
    cases hrf : cfg.run_rf
    case false =>
      simp only [hrf, Bool.false_eq_true, if_false] at hsk
      rw [stages_vqsr store cfg dep u b0 hrf, getElem_append_off] at hsk
      simp [newStagesVqsr] at hsk
      subst hsk
      rw [mkStage_isReused, hcp, Bool.not_not]
    case true =>
      simp only [hrf, if_true] at hsk
      rw [stages_rf store cfg dep u b0 hrf, getElem_append_off] at hsk
      simp [newStagesRF] at hsk
      subst hsk
      rw [mkStage_isReused, hcp, Bool.not_not]

theorem c4_reuse_iff_targets_witness :
    cfgBase.overwrite = false ∧
    ∀ A : List String, can_reuse storeAll A false = A.all storeAll :=
  ⟨rfl, (c4_reuse_iff_targets storeAll cfgBase [] "abcd1234" Builder.empty rfl).1⟩

/-- C3 counterexample: with overwrite=true and every artifact present,
the AS-VQSR final-filter stage is built in REUSED form, although the
claim says that with overwrite=true every stage — including this one —
is forced to EXECUTED form. -/
theorem c3_counterexample :
    ({ cfgBase with overwrite := true } : Config).overwrite = true ∧
    (add_variant_qc_jobs storeAll { cfgBase with overwrite := true } [] "abcd1234"
        Builder.empty).1.stages[7]? =
      some ⟨"AS-VQSR: final filter [reuse]", none⟩ := by
  exact ⟨rfl, rfl⟩

/-- C3 amended: with overwrite=true the reuse oracle returns false for
every artifact set, and every stage of the variant-QC graph is built
EXECUTED — except the AS-VQSR final-filter stage of add_vqsr_eval_jobs,
whose check (source line 420) consults only the existence of the output
table and ignores the overwrite flag; a REUSED stage in an overwrite=true
run can only be that stage, and only when its output exists. -/
theorem c3_amended_overwrite (store : String → Bool) (cfg : Config) (dep : List Nat)
    (u : String) (b0 : Builder) (how : cfg.overwrite = true) :
    (∀ A : List String, can_reuse store A true = false) ∧
    (∀ s ∈ (add_variant_qc_jobs store cfg dep u b0).1.stages.drop b0.stages.length,
      s.isReused = true →
        cfg.run_rf = false ∧ s.name = "AS-VQSR: final filter [reuse]" ∧
          store (vqsr_final_filter_ht_path cfg) = true) := by
  have hciT : cInfo store cfg = true := by simp [cInfo, can_reuse, how]
  have hcaT : cAnno store cfg = true := by simp [cAnno, can_reuse, how]
  have hcfT : cFreq store cfg = true := by simp [cFreq, how]
  have hcraT : cRfAnno store cfg = true := by simp [cRfAnno, how]
  have hcrT : cRf store cfg = true := by simp [cRf, how]
  have hcreT : cRfEval store cfg = true := by simp [cRfEval, how]
  have hcrffT : cRfFF store cfg = true := by simp [cRfFF, how]
  have hcvT : cVqsr store cfg = true := by simp [cVqsr, how]
  have hclT : cLoad store cfg = true := by simp [cLoad, how]
  have hcveT : cVEval store cfg = true := by simp [cVEval, how]
  have hcmtT : cFinalMt store cfg = true := by simp [cFinalMt, can_reuse, how]
  have hcpT : cPrep store cfg = true := by simp [cPrep, can_reuse, how]
  have hchrT : ∀ ch, cChr store cfg ch = true := fun ch => by
    simp [cChr, can_reuse, how]
  refine ⟨fun A => by simp [can_reuse], ?_⟩
  intro s hs hre
  cases hrf : cfg.run_rf
  case true =>
    rw [stages_rf store cfg dep u b0 hrf] at hs
    simp only [List.drop_left] at hs
    simp only [newStagesRF, List.mem_append, List.mem_cons, List.not_mem_nil, or_false,
      List.mem_map] at hs
    rcases hs with (rfl | rfl | rfl | rfl | rfl | rfl | rfl | rfl | rfl) | ⟨ch, hch, rfl⟩ <;>
      rw [mkStage_isReused] at hre
    · rw [hciT] at hre; simp at hre
    · rw [hcaT] at hre; simp at hre
    · rw [hcfT] at hre; simp at hre
    · rw [hcraT] at hre; simp at hre
    · rw [hcrT] at hre; simp at hre
    · rw [hcreT] at hre; simp at hre
    · rw [hcrffT] at hre; simp at hre
    · rw [hcmtT] at hre; simp at hre
    · rw [hcpT] at hre; simp at hre
    · rw [hchrT ch] at hre; simp at hre
  case false =>
    rw [stages_vqsr store cfg dep u b0 hrf] at hs
    simp only [List.drop_left] at hs
    simp only [newStagesVqsr, List.mem_append, List.mem_cons, List.not_mem_nil, or_false,
      List.mem_map] at hs
    rcases hs with (rfl | rfl | rfl | rfl | rfl | rfl | rfl | rfl | rfl | rfl) |
      ⟨ch, hch, rfl⟩ <;> rw [mkStage_isReused] at hre
    · rw [hciT] at hre; simp at hre
    · rw [hcaT] at hre; simp at hre
    · rw [hcfT] at hre; simp at hre
    · rw [hcraT] at hre; simp at hre
    · rw [hcvT] at hre; simp at hre
    · rw [hclT] at hre; simp at hre
    · rw [hcveT] at hre; simp at hre
    · cases hvff : cVFF store cfg
      · refine ⟨rfl, ?_, ?_⟩
        · simp [mkStage, hvff]
        · simpa [cVFF, file_exists] using hvff
      · rw [hvff] at hre; simp at hre
    · rw [hcmtT] at hre; simp at hre
    · rw [hcpT] at hre; simp at hre
    · rw [hchrT ch] at hre; simp at hre

theorem c3_amended_overwrite_witness :
    ({ cfgBase with overwrite := true } : Config).overwrite = true ∧
    ∀ A : List String, can_reuse storeNone A true = false :=
  ⟨rfl, (c3_amended_overwrite storeNone { cfgBase with overwrite := true } [] "abcd1234"
    Builder.empty rfl).1⟩

/-- C6: in generate_final_filter_ht, supplying both cutoffs of a variant
class raises the configuration error, supplying neither raises one too,
and supplying exactly one raises no configuration error for that class
(the per-class mutual-exclusion and requiredness messages are never the
result). -/
theorem c6_cutoff_validation :
    (∀ (sb ib : Option Int) (ss is2 : Option ℚ) (agg : Bool) (bid : Option String),
      sb.isSome = true → ss.isSome = true →
      generate_final_filter_ht sb ib ss is2 agg bid =
        Except.error "snp_bin_cutoff and snp_score_cutoff are mutually exclusive, please only supply one SNP filtering cutoff.") ∧
    (∀ (sb ib : Option Int) (ss is2 : Option ℚ) (agg : Bool) (bid : Option String),
      ib.isSome = true → is2.isSome = true →
      ∃ m, generate_final_filter_ht sb ib ss is2 agg bid = Except.error m) ∧
    (∀ (sb ib : Option Int) (ss is2 : Option ℚ) (agg : Bool) (bid : Option String),
      sb = none → ss = none →
      ∃ m, generate_final_filter_ht sb ib ss is2 agg bid = Except.error m) ∧
    (∀ (sb ib : Option Int) (ss is2 : Option ℚ) (agg : Bool) (bid : Option String),
      ib = none → is2 = none →
      ∃ m, generate_final_filter_ht sb ib ss is2 agg bid = Except.error m) ∧
    (∀ (sb ib : Option Int) (ss is2 : Option ℚ) (agg : Bool) (bid : Option String),
      sb.isSome = !ss.isSome →
      generate_final_filter_ht sb ib ss is2 agg bid ≠
        Except.error "snp_bin_cutoff and snp_score_cutoff are mutually exclusive, please only supply one SNP filtering cutoff." ∧
      generate_final_filter_ht sb ib ss is2 agg bid ≠
        Except.error "One (and only one) of the parameters snp_bin_cutoff and snp_score_cutoff must be supplied.") ∧
    (∀ (sb ib : Option Int) (ss is2 : Option ℚ) (agg : Bool) (bid : Option String),
      ib.isSome = !is2.isSome →
      generate_final_filter_ht sb ib ss is2 agg bid ≠
        Except.error "indel_bin_cutoff and indel_score_cutoff are mutually exclusive, please only supply one indel filtering cutoff." ∧
      generate_final_filter_ht sb ib ss is2 agg bid ≠
        Except.error "One (and only one) of the parameters indel_bin_cutoff and indel_score_cutoff must be supplied.") := by
  refine ⟨?_, ?_, ?_, ?_, ?_, ?_⟩
  · intro sb ib ss is2 agg bid h1 h2
    cases sb <;> cases ss <;> simp_all [generate_final_filter_ht]
  · intro sb ib ss is2 agg bid h1 h2
    cases sb <;> cases ss <;> cases ib <;> cases is2 <;>
      simp_all [generate_final_filter_ht]
  · intro sb ib ss is2 agg bid h1 h2
    subst h1; subst h2
    cases ib <;> cases is2 <;> simp_all [generate_final_filter_ht]
  · intro sb ib ss is2 agg bid h1 h2
    subst h1; subst h2
    cases sb <;> cases ss <;> simp_all [generate_final_filter_ht]
  · intro sb ib ss is2 agg bid h1
    cases sb <;> cases ss <;> cases ib <;> cases is2 <;>
      simp_all [generate_final_filter_ht] <;> split <;> simp
  · intro sb ib ss is2 agg bid h1
    cases sb <;> cases ss <;> cases ib <;> cases is2 <;>
      simp_all [generate_final_filter_ht] <;> split <;> simp

theorem c6_cutoff_validation_witness :
    (some (10 : Int)).isSome = true ∧ (some (1 / 2 : ℚ)).isSome = true ∧
    generate_final_filter_ht (some 10) none (some (1 / 2)) (some 1) true (some "bin") =
      Except.error "snp_bin_cutoff and snp_score_cutoff are mutually exclusive, please only supply one SNP filtering cutoff." :=
  ⟨rfl, rfl, c6_cutoff_validation.1 (some 10) none (some (1 / 2)) (some 1) true
    (some "bin") rfl rfl⟩

theorem str_cancel_left (a b c : String) (h : a ++ b = a ++ c) : b = c := by
  have hd := congrArg String.data h
  simp only [String.data_append] at hd
  exact String.ext (List.append_cancel_left hd)

theorem str_cancel_right (a b c : String) (h : a ++ c = b ++ c) : a = b := by
  have hd := congrArg String.data h
  simp only [String.data_append] at hd
  exact String.ext (List.append_cancel_right hd)

set_option maxRecDepth 10000 in
/-- C7 counterexample: a cutoff configuration that generate_final_filter_ht
rejects does not stop graph construction: the full graph (24 export jobs)
is still built, and the cutoff validation sits behind the command of the
dispatched RF final-filter stage, which invokes final_filter.py — so the
configuration error is not raised at graph-construction time. -/
theorem c7_counterexample :
    (∃ m, generate_final_filter_ht (some 50) none (some (1 / 2 : ℚ)) (some 1) true
        (some "bin") = Except.error m) ∧
    (add_variant_qc_jobs storeNone { cfgBase with run_rf := true } [] "abcd1234"
        Builder.empty).2.length = 24 ∧
    (∃ q, (add_variant_qc_jobs storeNone { cfgBase with run_rf := true } [] "abcd1234"
        Builder.empty).1.stages[6]? =
      some ⟨"RF: final filter",
        some (SCRIPTS_DIR ++ "/final_filter.py --overwrite " ++ q)⟩) := by
  refine ⟨⟨_, rfl⟩, rfl, ?_⟩
  exact ⟨"--out-final-filter-ht gs://wb/rf/final-filter.ht --model-id rf_abcd1234 --model-name RF --score-name RF --info-split-ht gs://wb/info-split.ht --freq-ht gs://wb/frequencies.ht --score-bin-ht gs://wb/rf/rf-score-bin.ht --score-bin-agg-ht gs://wb/rf/rf-score-agg-bin.ht --bucket gs://wb/rf ", rfl⟩

/-- C7 amended: the cutoff validation is raised synchronously inside
final_filter.py (generate_final_filter_ht rejects a bad configuration
before any table is built), but that script runs as the command of the
dispatched final-filter stage: graph construction takes no cutoff
parameters, always builds the complete graph (33 or 34 new stages), and
the RF final-filter command is an invocation of final_filter.py — the
validation therefore happens at stage run time, not at
graph-construction time. -/
theorem c7_amended_validation_in_stage (store : String → Bool) (cfg : Config)
    (dep : List Nat) (u : String) (b0 : Builder)
    (sb : Option Int) (ib : Option Int) (ss is2 : Option ℚ) (agg : Bool)
    (bid : Option String) (h1 : sb.isSome = true) (h2 : ss.isSome = true) :
    (∃ m, generate_final_filter_ht sb ib ss is2 agg bid = Except.error m) ∧
    (add_variant_qc_jobs store cfg dep u b0).1.stages.length =
      b0.stages.length + (if cfg.run_rf then 33 else 34) ∧
    (∃ q, rfFinalFilterCmd (rf_final_filter_ht_path cfg) ("rf_" ++ u)
        (info_split_ht_path cfg) (freq_ht_path cfg) (rf_score_bin_path cfg)
        (rf_score_bin_agg_path cfg) (rf_bucket cfg) =
      SCRIPTS_DIR ++ "/final_filter.py --overwrite " ++ q) := by
  refine ⟨?_, ?_, ?_⟩
  · cases sb <;> cases ss <;> simp_all [generate_final_filter_ht]
  · cases hrf : cfg.run_rf
    case false =>
      rw [stages_vqsr store cfg dep u b0 hrf]
      simp [newStagesVqsr, chromosomes_length]
    case true =>
      rw [stages_rf store cfg dep u b0 hrf]
      simp [newStagesRF, chromosomes_length]
  · refine ⟨"--out-final-filter-ht " ++ ((rf_final_filter_ht_path cfg) ++ (" " ++ ("--model-id " ++ (("rf_" ++ u) ++ (" " ++ ("--model-name RF " ++ ("--score-name RF " ++ ("--info-split-ht " ++ ((info_split_ht_path cfg) ++ (" " ++ ("--freq-ht " ++ ((freq_ht_path cfg) ++ (" " ++ ("--score-bin-ht " ++ ((rf_score_bin_path cfg) ++ (" " ++ ("--score-bin-agg-ht " ++ ((rf_score_bin_agg_path cfg) ++ (" " ++ ("--bucket " ++ ((rf_bucket cfg) ++ (" ")))))))))))))))))))))), ?_⟩
    simp only [rfFinalFilterCmd, String.append_assoc]

theorem c7_amended_validation_in_stage_witness :
    (some (50 : Int)).isSome = true ∧ (some (1 / 2 : ℚ)).isSome = true ∧
    (∃ m, generate_final_filter_ht (some 50) none (some (1 / 2)) (some 1) true
        (some "bin") = Except.error m) :=
  ⟨rfl, rfl, (c7_amended_validation_in_stage storeNone cfgBase [] "abcd1234"
    Builder.empty (some 50) none (some (1 / 2)) (some 1) true (some "bin")
    rfl rfl).1⟩

/-- C8 (modelled intent of final_filter.main lines 333-338): when the
aggregated-bin table for the requested model id is absent from the store,
main reports the fatal message naming the model id and the path, and
never reaches generate_final_filter_ht. -/
theorem c8_missing_agg_table (store : String → Bool) (model_id : String)
    (aggPathOf : String → String) (sb ib : Option Int) (ss is2 : Option ℚ)
    (h : store (aggPathOf model_id) = false) :
    final_filter_main store model_id aggPathOf sb ib ss is2 =
      Except.error ("Could not find binned HT for model: " ++ model_id ++ " (" ++
        aggPathOf model_id ++ "). Please run create_ranked_scores.py for that hash.") := by
  simp [final_filter_main, file_exists, h]

theorem c8_missing_agg_table_witness :
    storeNone ((fun m => join "gs://wb/rf" (m ++ "-agg.ht")) "rf_abcd1234") = false ∧
    final_filter_main storeNone "rf_abcd1234"
        (fun m => join "gs://wb/rf" (m ++ "-agg.ht")) none none none none =
      Except.error ("Could not find binned HT for model: " ++ "rf_abcd1234" ++ " (" ++
        (fun m => join "gs://wb/rf" (m ++ "-agg.ht")) "rf_abcd1234" ++
        "). Please run create_ranked_scores.py for that hash.") :=
  ⟨rfl, c8_missing_agg_table storeNone "rf_abcd1234"
    (fun m => join "gs://wb/rf" (m ++ "-agg.ht")) none none none none rfl⟩

/-- C9: with overwrite=false, the RF evaluation reuse check consults only
the per-variant score-bin table (line 310): when it exists but the
aggregated-bin table is missing, the RF evaluation stage is still a
REUSED placeholder; the AS-VQSR evaluation stage (lines 391-395) in the
same situation is EXECUTED, because its check also consults the
aggregated table. -/
theorem c9_rf_eval_reuse_gap (store store2 : String → Bool) (cl cl2 : Cluster)
    (cmp isp rrp rap : String) (fam : Option String) (fp mid wb : String)
    (dep : List Nat) (b : Builder)
    (cmp2 rap2 isp2 fgv : String) (rr fam2 : Option String) (fp2 wb2 : String)
    (vj raj : Nat) (oht : String) (b2 : Builder)
    (h1 : store (join wb "rf-score-bin.ht") = true)
    (_h1a : store (join wb "rf-score-agg-bin.ht") = false)
    (h2 : store2 (join wb2 "vqsr-score-bin.ht") = true)
    (h3 : store2 (join wb2 "vqsr-score-agg-bin.ht") = false) :
    ((add_rf_eval_jobs store cl cmp isp rrp rap fam fp mid wb false dep b).1.stages[
        b.stages.length]? = some ⟨"RF: evaluation [reuse]", none⟩) ∧
    (∃ c, (add_vqsr_eval_jobs store2 cl2 cmp2 rap2 isp2 fgv rr fam2 fp2 wb2 false vj raj
        oht b2).1.stages[b2.stages.length + 1]? = some ⟨"AS-VQSR: evaluation", some c⟩) := by
  constructor
  · rw [add_rf_eval_jobs_eq]
    rw [List.getElem?_append_right (by omega)]
    simp [file_exists, h1, mkStage]
  · rw [add_vqsr_eval_jobs_eq]
    rw [getElem_append_off]
    refine ⟨vqsrEvalCmd cmp2 rap2 isp2 fam2 rr (join wb2 "vqsr-filters-split.ht") wb2
      (join wb2 "vqsr-score-bin.ht") (join wb2 "vqsr-score-agg-bin.ht"), ?_⟩
    simp [file_exists, h2, h3, mkStage]

theorem c9_rf_eval_reuse_gap_witness :
    (fun s => s == join "b" "rf-score-bin.ht") (join "b" "rf-score-bin.ht") = true ∧
    (fun s => s == join "b" "rf-score-bin.ht") (join "b" "rf-score-agg-bin.ht") = false ∧
    (fun s => s == join "B" "vqsr-score-bin.ht") (join "B" "vqsr-score-bin.ht") = true ∧
    (fun s => s == join "B" "vqsr-score-bin.ht") (join "B" "vqsr-score-agg-bin.ht")
      = false ∧
    ((add_rf_eval_jobs (fun s => s == join "b" "rf-score-bin.ht")
        (get_cluster "RF" [] true) "mt" "isp" "rrp" "rap" none "fp" "mid" "b" false []
        Builder.empty).1.stages[Builder.empty.stages.length]? =
      some ⟨"RF: evaluation [reuse]", none⟩) :=
  ⟨by decide, by decide, by decide, by decide,
    (c9_rf_eval_reuse_gap (fun s => s == join "b" "rf-score-bin.ht")
      (fun s => s == join "B" "vqsr-score-bin.ht") (get_cluster "RF" [] true)
      (get_cluster "V" [] true) "mt" "isp" "rrp" "rap" none "fp" "mid" "b" []
      Builder.empty "mt2" "rap2" "isp2" "fgv" none none "fp2" "B" 0 0 "oht"
      Builder.empty (by decide) (by decide) (by decide) (by decide)).1⟩

/-- C10: the fresh UUID fragment drawn at construction time is embedded
in the random-forest and RF final-filter commands: two runs of
add_variant_qc_jobs with identical inputs (run_rf=true, RF artifacts
absent) but different fresh fragments build stages whose commands differ,
so graph construction is not a deterministic function of its run-level
inputs alone. -/
theorem c10_uuid_nondeterminism (store : String → Bool) (cfg : Config) (dep : List Nat)
    (u1 u2 : String) (b0 : Builder) (hrf : cfg.run_rf = true)
    (hrr : store (rf_result_ht_path cfg) = false)
    (hff : store (rf_final_filter_ht_path cfg) = false)
    (hne : u1 ≠ u2) :
    (add_variant_qc_jobs store cfg dep u1 b0).1.stages[b0.stages.length + 4]? ≠
      (add_variant_qc_jobs store cfg dep u2 b0).1.stages[b0.stages.length + 4]? ∧
    (add_variant_qc_jobs store cfg dep u1 b0).1.stages[b0.stages.length + 6]? ≠
      (add_variant_qc_jobs store cfg dep u2 b0).1.stages[b0.stages.length + 6]? := by
  have hc : cRf store cfg = true := by simp [cRf, file_exists, hrr]
  have hcf : cRfFF store cfg = true := by simp [cRfFF, file_exists, hff]
  constructor
  · intro heq
    rw [stages_rf store cfg dep u1 b0 hrf, stages_rf store cfg dep u2 b0 hrf,
      getElem_append_off, getElem_append_off] at heq
    simp only [newStagesRF] at heq
    simp [mkStage, hc, Stage.mk.injEq] at heq
    simp only [rfCmd, String.append_assoc] at heq
    iterate 14 replace heq := str_cancel_left _ _ _ heq
    exact hne (str_cancel_right _ _ _ heq)
  · intro heq
    rw [stages_rf store cfg dep u1 b0 hrf, stages_rf store cfg dep u2 b0 hrf,
      getElem_append_off, getElem_append_off] at heq
    simp only [newStagesRF] at heq
    simp [mkStage, hcf, Stage.mk.injEq] at heq
    simp only [rfFinalFilterCmd, String.append_assoc] at heq
    iterate 7 replace heq := str_cancel_left _ _ _ heq
    exact hne (str_cancel_right _ _ _ heq)

theorem c10_uuid_nondeterminism_witness :
    ({ cfgBase with run_rf := true } : Config).run_rf = true ∧
    storeNone (rf_result_ht_path { cfgBase with run_rf := true }) = false ∧
    storeNone (rf_final_filter_ht_path { cfgBase with run_rf := true }) = false ∧
    ("aaaaaaaa" : String) ≠ "bbbbbbbb" ∧
    (add_variant_qc_jobs storeNone { cfgBase with run_rf := true } [] "aaaaaaaa"
        Builder.empty).1.stages[Builder.empty.stages.length + 4]? ≠
      (add_variant_qc_jobs storeNone { cfgBase with run_rf := true } [] "bbbbbbbb"
        Builder.empty).1.stages[Builder.empty.stages.length + 4]? :=
  ⟨rfl, rfl, rfl, by decide,
    (c10_uuid_nondeterminism storeNone { cfgBase with run_rf := true } [] "aaaaaaaa"
      "bbbbbbbb" Builder.empty rfl rfl rfl (by decide)).1⟩

end JointCalling
